import Mathlib

/-!
# Waterius remote-configuration core: a shallow embedding

This file embeds, in Lean 4, the remote-configuration synchronization and
settings-merge engine of the Waterius ESP8266 firmware:

* `validate_and_get_response` (src/ESP8266/src/https_helpers.cpp) — the
  bounded response validator;
* `validate_device_key`, `apply_config_from_server`,
  `fetch_and_apply_remote_config`, `apply_config_from_response`
  (src/ESP8266/src/remote_config.cpp) — key authentication and the
  settings-merge engine;
* `update_settings` and `MqttCounterContext`
  (src/ESP8266/src/ha/subscribe.cpp) — the push-update path;
* `send_waterius` / `send_http` (src/ESP8266/src/senders/*.h) and the wake
  cycle `loop` (src/ESP8266/src/main.cpp) — cycle orchestration, the
  reboot-loop guard and the heartbeat / wake-skip decision.

Modelling conventions:

* C integers become `Nat`/`Int` (with explicit `% 2 ^ w` where an overflow
  is possible on the modelled paths); C `float` readings become `ℚ`.
* External collaborators (the network transport, ArduinoJson's parser, the
  ATtiny peripheral, EEPROM storage) are inputs: a fetched or parsed
  document arrives as an `Option RemoteConfigDoc`, the result of the
  peripheral call `setCountersType` arrives as a `Bool`, and persistence
  (`store_config`) is recorded as a trace event.
* Stateful code is explicit state passing; observable actions (peripheral
  calls, flag reads/writes, persistence, restart) are recorded in an event
  trace so that "X is never invoked" claims are statements about the trace.
* Buffer-size macros and counter-type enum codes live in headers that are
  not part of the provided sources; they are collected in a `Limits`
  parameter (see its doc comment).
-/

namespace Waterius

/-- Modelled from the spec: fixed-size storage bounds (`SERIAL_LEN`,
`HOST_LEN`, ...), the counter-type enumeration codes (`NAMUR`,
`ELECTRONIC`, `NONE`) and the response-size ceiling
(`REMOTE_CONFIG_MAX_SIZE`) are defined in headers (`setup.h`,
`master_i2c.h`, `config.h`) that are not among the provided sources.  The
spec fixes only that the string bounds are fixed sizes, that the three
counter-type codes are distinct, and that the ceiling is a fixed maximum;
so all of them are carried as parameters. -/
structure Limits where
  SERIAL_LEN : Nat
  COUNTER_NAME_MAX : Nat
  WIFI_SSID_LEN : Nat
  WIFI_PWD_LEN : Nat
  HOST_LEN : Nat
  MQTT_LOGIN_LEN : Nat
  MQTT_PASSWORD_LEN : Nat
  MQTT_TOPIC_LEN : Nat
  WATERIUS_KEY_LEN : Nat
  EMAIL_LEN : Nat
  COMPANY_LEN : Nat
  PLACE_LEN : Nat
  NAMUR : Nat
  ELECTRONIC : Nat
  NONE_T : Nat
  REMOTE_CONFIG_MAX_SIZE : Nat
  deriving DecidableEq

/-- Data read from the ATtiny85 peripheral once per cycle
(`AttinyData`, declared in `master_i2c.h`): the impulse counts and the
currently effective counter types. -/
structure AttinyData where
  impulses0 : Nat
  impulses1 : Nat
  counter_type0 : Nat
  counter_type1 : Nat
  deriving DecidableEq

/-- The persistent device settings (`Settings`, declared in `setup.h`),
restricted to the fields read or written by the modelled code.  C `float`
readings are `ℚ`, fixed C char buffers are `String` (a string is stored
only when it fits, so no truncation is modelled), `uint8_t` flags used as
booleans are `Bool`, IP addresses are the `uint32_t` they wrap. -/
structure Settings where
  channel0_start : ℚ := 0
  channel1_start : ℚ := 0
  serial0 : String := ""
  serial1 : String := ""
  counter0_name : Nat := 0
  counter1_name : Nat := 0
  factor0 : Nat := 1
  factor1 : Nat := 1
  impulses0_start : Nat := 0
  impulses1_start : Nat := 0
  impulses0_previous : Nat := 0
  impulses1_previous : Nat := 0
  wakeup_per_min : Nat := 1
  period_min_tuned : Nat := 1
  wake_on_consumption_only : Bool := false
  wakeups_without_send : Nat := 0
  wifi_ssid : String := ""
  wifi_password : String := ""
  mqtt_on : Bool := false
  mqtt_host : String := ""
  mqtt_port : Nat := 1883
  mqtt_login : String := ""
  mqtt_password : String := ""
  mqtt_topic : String := ""
  http_on : Bool := false
  http_url : String := ""
  ntp_server : String := ""
  waterius_on : Bool := false
  waterius_host : String := ""
  waterius_key : String := ""
  waterius_email : String := ""
  company : String := ""
  place : String := ""
  mqtt_auto_discovery : Bool := false
  mqtt_discovery_topic : String := ""
  dhcp_off : Bool := false
  ip : Nat := 0
  gateway : Nat := 0
  mask : Nat := 0
  mdns_on : Bool := false
  config_restart_pending : Bool := false
  setup_time : Nat := 0
  deriving DecidableEq

/-- A parsed configuration document (`JsonDocument` after
`deserializeJson`): a mapping of recognized field names to values, each
already converted by the ArduinoJson `as<T>` extractor the C++ code uses
for that field (`as<String>` for the auth key and strings, `as<float>`,
`as<uint8_t>`, `as<uint16_t>`, `as<uint32_t>`, `as<bool>`).  `none` is
`isNull()`, i.e. the field is absent. -/
structure RemoteConfigDoc where
  key : Option String := none
  channel0 : Option ℚ := none
  channel1 : Option ℚ := none
  serial0 : Option String := none
  serial1 : Option String := none
  cname0 : Option Nat := none
  cname1 : Option Nat := none
  factor0 : Option Nat := none
  factor1 : Option Nat := none
  impulses0 : Option Nat := none
  impulses1 : Option Nat := none
  ctype0 : Option Nat := none
  ctype1 : Option Nat := none
  wakeup_per_min : Option Nat := none
  wake_on_consumption_only : Option Nat := none
  ssid : Option String := none
  password : Option String := none
  mqtt_on : Option Bool := none
  mqtt_host : Option String := none
  mqtt_port : Option Nat := none
  mqtt_login : Option String := none
  mqtt_password : Option String := none
  mqtt_topic : Option String := none
  http_on : Option Bool := none
  http_url : Option String := none
  ntp_server : Option String := none
  waterius_host : Option String := none
  waterius_key : Option String := none
  waterius_email : Option String := none
  waterius_on : Option Bool := none
  company : Option String := none
  place : Option String := none
  mqtt_auto_discovery : Option Bool := none
  mqtt_discovery_topic : Option String := none
  dhcp_off : Option Bool := none
  static_ip : Option String := none
  gateway : Option String := none
  mask : Option String := none
  mdns_on : Option Bool := none
  deriving DecidableEq

/-- Which of the three sequential checks of the bounded response validator
rejected the response; `none` (in `ValidateResult.reason`) means all three
passed.  Each check has its own log message in the source, so the firing
check is observable. -/
inductive RejectReason where
  | statusNot200
  | noContentLength
  | tooLarge
  deriving DecidableEq

/-- Result of `validate_and_get_response`: the returned boolean, the final
contents of the `out_response` output parameter, whether
`httpClient.getString()` (the body read) was invoked, and which check
rejected (instrumentation mirroring the per-branch log lines). -/
structure ValidateResult where
  ok : Bool
  out : String
  bodyRead : Bool
  reason : Option RejectReason
  deriving DecidableEq

/-- Embedding of `validate_and_get_response`
(src/ESP8266/src/https_helpers.cpp, lines 18-57).  `response_code` is the
`int` status, `content_length` the `int` returned by
`httpClient.getSize()` (`-1` when the Content-Length header is absent),
`maxSize` the ceiling `REMOTE_CONFIG_MAX_SIZE`, and `body` the string
`httpClient.getString()` would produce.  The C comparison
`(unsigned long)content_length > REMOTE_CONFIG_MAX_SIZE` is reached only
after `content_length > 0`, so the cast is value-preserving. -/
def validate_and_get_response (response_code : Int) (content_length : Int)
    (maxSize : Nat) (body : String) : ValidateResult :=
  if response_code ≠ 200 then
    { ok := false, out := "", bodyRead := false, reason := some .statusNot200 }
  else if content_length ≤ 0 then
    { ok := false, out := "", bodyRead := false, reason := some .noContentLength }
  else if (maxSize : Int) < content_length then
    { ok := false, out := "", bodyRead := false, reason := some .tooLarge }
  else
    { ok := true, out := body, bodyRead := true, reason := none }

/-- Embedding of `validate_device_key`
(src/ESP8266/src/remote_config.cpp, lines 36-52): authentication succeeds
exactly when the document carries a `key` field whose value (as a string)
equals the device key; an absent field and a mismatching field both
fail. -/
def validate_device_key (config_json : RemoteConfigDoc) (key : String) : Bool :=
  match config_json.key with
  | some server_key => if server_key ≠ key then false else true
  | none => false

/-- Embedding of `IPAddress::fromString` for dotted-quad strings (the
Arduino core, an external collaborator): four dot-separated decimal
octets, each at most 255; the parsed address is packed into the `uint32_t`
an `IPAddress` wraps. -/
def ipFromString (s : String) : Option Nat :=
  let octet := fun (t : String) =>
    match t.toNat? with
    | some n => if n ≤ 255 then some n else none
    | none => none
  match s.split (· == '.') with
  | [a, b, c, d] =>
    match octet a, octet b, octet c, octet d with
    | some x, some y, some z, some w => some (((x * 256 + y) * 256 + z) * 256 + w)
    | _, _, _, _ => none
  | _ => none

/-- Modelled from the spec: `reset_period_min_tuned` (declared in
`utils.h`, whose source is not provided) re-derives the tuned wake period
after `wakeup_per_min` changes; no claim depends on the tuning itself, so
it is modelled as copying the configured period. -/
def reset_period_min_tuned (sett : Settings) : Settings :=
  { sett with period_min_tuned := sett.wakeup_per_min }

/-- Membership of a counter-type code in the permitted enumeration, as the
check `ct == NAMUR || ct == ELECTRONIC || ct == NONE` in
`apply_config_from_server`. -/
def isValidCtype (lim : Limits) (c : Nat) : Bool :=
  c == lim.NAMUR || c == lim.ELECTRONIC || c == lim.NONE_T

/-!
The settings-merge engine `apply_config_from_server`
(src/ESP8266/src/remote_config.cpp, lines 207-377) is a fixed sequence of
per-field blocks, each expanded from `APPLY_CFG_NUM` / `APPLY_CFG_STR` or
written out by hand.  Each block below is one stage function acting on the
`(sett, config_changed)` pair, in the exact order of the source; a gate
(`if(sett.mqtt_on)`, `if(sett.http_on)`, `if(sett.dhcp_off)`) that wraps a
group of blocks in the source is repeated on each stage of the group,
which is equivalent because no stage of a group changes its own gate.
-/

/-- `APPLY_CFG_NUM(config_json, "channel0", sett.channel0_start, 0.0f, 999999.0f)`. -/
def applyChannel0 (doc : RemoteConfigDoc) (sc : Settings × Bool) : Settings × Bool :=
  match doc.channel0 with
  | none => sc
  | some v => if 0 ≤ v ∧ v ≤ 999999 then ({ sc.1 with channel0_start := v }, true) else sc

/-- `APPLY_CFG_NUM(config_json, "channel1", sett.channel1_start, 0.0f, 999999.0f)`. -/
def applyChannel1 (doc : RemoteConfigDoc) (sc : Settings × Bool) : Settings × Bool :=
  match doc.channel1 with
  | none => sc
  | some v => if 0 ≤ v ∧ v ≤ 999999 then ({ sc.1 with channel1_start := v }, true) else sc

/-- `APPLY_CFG_STR(config_json, "serial0", sett.serial0, SERIAL_LEN)`. -/
def applySerial0 (lim : Limits) (doc : RemoteConfigDoc) (sc : Settings × Bool) : Settings × Bool :=
  match doc.serial0 with
  | none => sc
  | some s => if s.length ≤ lim.SERIAL_LEN - 1 then ({ sc.1 with serial0 := s }, true) else sc

/-- `APPLY_CFG_STR(config_json, "serial1", sett.serial1, SERIAL_LEN)`. -/
def applySerial1 (lim : Limits) (doc : RemoteConfigDoc) (sc : Settings × Bool) : Settings × Bool :=
  match doc.serial1 with
  | none => sc
  | some s => if s.length ≤ lim.SERIAL_LEN - 1 then ({ sc.1 with serial1 := s }, true) else sc

/-- `APPLY_CFG_NUM(config_json, "cname0", sett.counter0_name, 0, COUNTER_NAME_MAX)`. -/
def applyCname0 (lim : Limits) (doc : RemoteConfigDoc) (sc : Settings × Bool) : Settings × Bool :=
  match doc.cname0 with
  | none => sc
  | some v => if 0 ≤ v ∧ v ≤ lim.COUNTER_NAME_MAX then ({ sc.1 with counter0_name := v }, true) else sc

/-- `APPLY_CFG_NUM(config_json, "cname1", sett.counter1_name, 0, COUNTER_NAME_MAX)`. -/
def applyCname1 (lim : Limits) (doc : RemoteConfigDoc) (sc : Settings × Bool) : Settings × Bool :=
  match doc.cname1 with
  | none => sc
  | some v => if 0 ≤ v ∧ v ≤ lim.COUNTER_NAME_MAX then ({ sc.1 with counter1_name := v }, true) else sc

/-- `APPLY_CFG_NUM(config_json, "factor0", sett.factor0, 1, 10000)`. -/
def applyFactor0 (doc : RemoteConfigDoc) (sc : Settings × Bool) : Settings × Bool :=
  match doc.factor0 with
  | none => sc
  | some v => if 1 ≤ v ∧ v ≤ 10000 then ({ sc.1 with factor0 := v }, true) else sc

/-- `APPLY_CFG_NUM(config_json, "factor1", sett.factor1, 1, 10000)`. -/
def applyFactor1 (doc : RemoteConfigDoc) (sc : Settings × Bool) : Settings × Bool :=
  match doc.factor1 with
  | none => sc
  | some v => if 1 ≤ v ∧ v ≤ 10000 then ({ sc.1 with factor1 := v }, true) else sc

/-- The `impulses0` block: when present, both `impulses0_start` and
`impulses0_previous` are replaced unconditionally. -/
def applyImpulses0 (doc : RemoteConfigDoc) (sc : Settings × Bool) : Settings × Bool :=
  match doc.impulses0 with
  | none => sc
  | some imp => ({ sc.1 with impulses0_start := imp, impulses0_previous := imp }, true)

/-- The `impulses1` block: when present, both `impulses1_start` and
`impulses1_previous` are replaced unconditionally. -/
def applyImpulses1 (doc : RemoteConfigDoc) (sc : Settings × Bool) : Settings × Bool :=
  match doc.impulses1 with
  | none => sc
  | some imp => ({ sc.1 with impulses1_start := imp, impulses1_previous := imp }, true)

/-- The counter-type block (remote_config.cpp lines 244-260), state
effect only: when `ctype0` and/or `ctype1` is present, an absent member is
filled from `data.counter_typeX`, the pair must pass the enumeration
check, and `config_changed` becomes true only when the single
`masterI2C.setCountersType(ct0, ct1)` call (whose result is `i2cOk`)
succeeds.  Settings fields are never written by this block.  The
peripheral call itself is recorded by `ctypeCalls`. -/
def applyCtypePair (lim : Limits) (doc : RemoteConfigDoc) (data : AttinyData)
    (i2cOk : Bool) (sc : Settings × Bool) : Settings × Bool :=
  if doc.ctype0.isSome || doc.ctype1.isSome then
    let ct0 := doc.ctype0.getD data.counter_type0
    let ct1 := doc.ctype1.getD data.counter_type1
    if (isValidCtype lim ct0 && isValidCtype lim ct1) && i2cOk then (sc.1, true) else sc
  else sc

/-- The peripheral calls issued by the counter-type block: thanks to the
short-circuit in `if(valid && masterI2C.setCountersType(ct0, ct1))`,
exactly one call carrying the whole pair is made when a member is present
and the pair is valid, and no call is made otherwise. -/
def ctypeCalls (lim : Limits) (doc : RemoteConfigDoc) (data : AttinyData) : List (Nat × Nat) :=
  if doc.ctype0.isSome || doc.ctype1.isSome then
    let ct0 := doc.ctype0.getD data.counter_type0
    let ct1 := doc.ctype1.getD data.counter_type1
    if isValidCtype lim ct0 && isValidCtype lim ct1 then [(ct0, ct1)] else []
  else []

/-- The `wakeup_per_min` block: bounds `[1, 1440]`, and on acceptance the
tuned period is re-derived via `reset_period_min_tuned`. -/
def applyWakeup (doc : RemoteConfigDoc) (sc : Settings × Bool) : Settings × Bool :=
  match doc.wakeup_per_min with
  | none => sc
  | some period =>
    if 1 ≤ period ∧ period ≤ 1440 then
      (reset_period_min_tuned { sc.1 with wakeup_per_min := period }, true)
    else sc

/-- `APPLY_CFG_NUM(config_json, "wake_on_consumption_only",
sett.wake_on_consumption_only, 0, 1)`: the `uint8_t` value in `[0, 1]` is
stored into the flag (1 = enabled). -/
def applyWoc (doc : RemoteConfigDoc) (sc : Settings × Bool) : Settings × Bool :=
  match doc.wake_on_consumption_only with
  | none => sc
  | some v => if 0 ≤ v ∧ v ≤ 1 then ({ sc.1 with wake_on_consumption_only := v == 1 }, true) else sc

/-- `APPLY_CFG_STR(config_json, "ssid", sett.wifi_ssid, WIFI_SSID_LEN)`. -/
def applySsid (lim : Limits) (doc : RemoteConfigDoc) (sc : Settings × Bool) : Settings × Bool :=
  match doc.ssid with
  | none => sc
  | some s => if s.length ≤ lim.WIFI_SSID_LEN - 1 then ({ sc.1 with wifi_ssid := s }, true) else sc

/-- `APPLY_CFG_STR(config_json, "password", sett.wifi_password, WIFI_PWD_LEN)`. -/
def applyWifiPassword (lim : Limits) (doc : RemoteConfigDoc) (sc : Settings × Bool) : Settings × Bool :=
  match doc.password with
  | none => sc
  | some s => if s.length ≤ lim.WIFI_PWD_LEN - 1 then ({ sc.1 with wifi_password := s }, true) else sc

/-- The `mqtt_on` block: an `as<bool>` field applied unconditionally when
present. -/
def applyMqttOn (doc : RemoteConfigDoc) (sc : Settings × Bool) : Settings × Bool :=
  match doc.mqtt_on with
  | none => sc
  | some b => ({ sc.1 with mqtt_on := b }, true)

/-- `APPLY_CFG_STR(config_json, "mqtt_host", ...)`, gated by the (possibly
just-updated) `sett.mqtt_on`. -/
def applyMqttHost (lim : Limits) (doc : RemoteConfigDoc) (sc : Settings × Bool) : Settings × Bool :=
  if sc.1.mqtt_on then
    match doc.mqtt_host with
    | none => sc
    | some s => if s.length ≤ lim.HOST_LEN - 1 then ({ sc.1 with mqtt_host := s }, true) else sc
  else sc

/-- `APPLY_CFG_NUM(config_json, "mqtt_port", sett.mqtt_port, 1, 65535)`,
gated by `sett.mqtt_on`. -/
def applyMqttPort (doc : RemoteConfigDoc) (sc : Settings × Bool) : Settings × Bool :=
  if sc.1.mqtt_on then
    match doc.mqtt_port with
    | none => sc
    | some v => if 1 ≤ v ∧ v ≤ 65535 then ({ sc.1 with mqtt_port := v }, true) else sc
  else sc

/-- `APPLY_CFG_STR(config_json, "mqtt_login", ...)`, gated by `sett.mqtt_on`. -/
def applyMqttLogin (lim : Limits) (doc : RemoteConfigDoc) (sc : Settings × Bool) : Settings × Bool :=
  if sc.1.mqtt_on then
    match doc.mqtt_login with
    | none => sc
    | some s => if s.length ≤ lim.MQTT_LOGIN_LEN - 1 then ({ sc.1 with mqtt_login := s }, true) else sc
  else sc

/-- `APPLY_CFG_STR(config_json, "mqtt_password", ...)`, gated by `sett.mqtt_on`. -/
def applyMqttPassword (lim : Limits) (doc : RemoteConfigDoc) (sc : Settings × Bool) : Settings × Bool :=
  if sc.1.mqtt_on then
    match doc.mqtt_password with
    | none => sc
    | some s => if s.length ≤ lim.MQTT_PASSWORD_LEN - 1 then ({ sc.1 with mqtt_password := s }, true) else sc
  else sc

/-- `APPLY_CFG_STR(config_json, "mqtt_topic", ...)`, gated by `sett.mqtt_on`. -/
def applyMqttTopic (lim : Limits) (doc : RemoteConfigDoc) (sc : Settings × Bool) : Settings × Bool :=
  if sc.1.mqtt_on then
    match doc.mqtt_topic with
    | none => sc
    | some s => if s.length ≤ lim.MQTT_TOPIC_LEN - 1 then ({ sc.1 with mqtt_topic := s }, true) else sc
  else sc

/-- The `http_on` block: an `as<bool>` field applied unconditionally when
present. -/
def applyHttpOn (doc : RemoteConfigDoc) (sc : Settings × Bool) : Settings × Bool :=
  match doc.http_on with
  | none => sc
  | some b => ({ sc.1 with http_on := b }, true)

/-- `APPLY_CFG_STR(config_json, "http_url", ...)`, gated by the (possibly
just-updated) `sett.http_on`. -/
def applyHttpUrl (lim : Limits) (doc : RemoteConfigDoc) (sc : Settings × Bool) : Settings × Bool :=
  if sc.1.http_on then
    match doc.http_url with
    | none => sc
    | some s => if s.length ≤ lim.HOST_LEN - 1 then ({ sc.1 with http_url := s }, true) else sc
  else sc

/-- `APPLY_CFG_STR(config_json, "ntp_server", sett.ntp_server, HOST_LEN)`. -/
def applyNtpServer (lim : Limits) (doc : RemoteConfigDoc) (sc : Settings × Bool) : Settings × Bool :=
  match doc.ntp_server with
  | none => sc
  | some s => if s.length ≤ lim.HOST_LEN - 1 then ({ sc.1 with ntp_server := s }, true) else sc

/-- `APPLY_CFG_STR(config_json, "waterius_host", ...)`. -/
def applyWateriusHost (lim : Limits) (doc : RemoteConfigDoc) (sc : Settings × Bool) : Settings × Bool :=
  match doc.waterius_host with
  | none => sc
  | some s => if s.length ≤ lim.HOST_LEN - 1 then ({ sc.1 with waterius_host := s }, true) else sc

/-- `APPLY_CFG_STR(config_json, "waterius_key", ...)`. -/
def applyWateriusKey (lim : Limits) (doc : RemoteConfigDoc) (sc : Settings × Bool) : Settings × Bool :=
  match doc.waterius_key with
  | none => sc
  | some s => if s.length ≤ lim.WATERIUS_KEY_LEN - 1 then ({ sc.1 with waterius_key := s }, true) else sc

/-- `APPLY_CFG_STR(config_json, "waterius_email", ...)`. -/
def applyWateriusEmail (lim : Limits) (doc : RemoteConfigDoc) (sc : Settings × Bool) : Settings × Bool :=
  match doc.waterius_email with
  | none => sc
  | some s => if s.length ≤ lim.EMAIL_LEN - 1 then ({ sc.1 with waterius_email := s }, true) else sc

/-- The `waterius_on` block: an `as<bool>` field applied unconditionally
when present. -/
def applyWateriusOn (doc : RemoteConfigDoc) (sc : Settings × Bool) : Settings × Bool :=
  match doc.waterius_on with
  | none => sc
  | some b => ({ sc.1 with waterius_on := b }, true)

/-- `APPLY_CFG_STR(config_json, "company", sett.company, COMPANY_LEN)`. -/
def applyCompany (lim : Limits) (doc : RemoteConfigDoc) (sc : Settings × Bool) : Settings × Bool :=
  match doc.company with
  | none => sc
  | some s => if s.length ≤ lim.COMPANY_LEN - 1 then ({ sc.1 with company := s }, true) else sc

/-- `APPLY_CFG_STR(config_json, "place", sett.place, PLACE_LEN)`. -/
def applyPlace (lim : Limits) (doc : RemoteConfigDoc) (sc : Settings × Bool) : Settings × Bool :=
  match doc.place with
  | none => sc
  | some s => if s.length ≤ lim.PLACE_LEN - 1 then ({ sc.1 with place := s }, true) else sc

/-- The `mqtt_auto_discovery` block: an `as<bool>` field applied
unconditionally when present. -/
def applyAutoDiscovery (doc : RemoteConfigDoc) (sc : Settings × Bool) : Settings × Bool :=
  match doc.mqtt_auto_discovery with
  | none => sc
  | some b => ({ sc.1 with mqtt_auto_discovery := b }, true)

/-- `APPLY_CFG_STR(config_json, "mqtt_discovery_topic", ...)` (not gated
by `mqtt_on` in the source). -/
def applyDiscoveryTopic (lim : Limits) (doc : RemoteConfigDoc) (sc : Settings × Bool) : Settings × Bool :=
  match doc.mqtt_discovery_topic with
  | none => sc
  | some s => if s.length ≤ lim.MQTT_TOPIC_LEN - 1 then ({ sc.1 with mqtt_discovery_topic := s }, true) else sc

/-- The `dhcp_off` block: an `as<bool>` field applied unconditionally when
present. -/
def applyDhcpOff (doc : RemoteConfigDoc) (sc : Settings × Bool) : Settings × Bool :=
  match doc.dhcp_off with
  | none => sc
  | some b => ({ sc.1 with dhcp_off := b }, true)

/-- The `static_ip` block, gated by the (possibly just-updated)
`sett.dhcp_off`; applied only when `IPAddress::fromString` accepts the
string. -/
def applyStaticIp (doc : RemoteConfigDoc) (sc : Settings × Bool) : Settings × Bool :=
  if sc.1.dhcp_off then
    match doc.static_ip with
    | none => sc
    | some s =>
      match ipFromString s with
      | some ipv => ({ sc.1 with ip := ipv }, true)
      | none => sc
  else sc

/-- The `gateway` block, gated by `sett.dhcp_off`. -/
def applyGateway (doc : RemoteConfigDoc) (sc : Settings × Bool) : Settings × Bool :=
  if sc.1.dhcp_off then
    match doc.gateway with
    | none => sc
    | some s =>
      match ipFromString s with
      | some gw => ({ sc.1 with gateway := gw }, true)
      | none => sc
  else sc

/-- The `mask` block, gated by `sett.dhcp_off`. -/
def applyMask (doc : RemoteConfigDoc) (sc : Settings × Bool) : Settings × Bool :=
  if sc.1.dhcp_off then
    match doc.mask with
    | none => sc
    | some s =>
      match ipFromString s with
      | some m => ({ sc.1 with mask := m }, true)
      | none => sc
  else sc

/-- The `mdns_on` block: an `as<bool>` field applied unconditionally when
present. -/
def applyMdnsOn (doc : RemoteConfigDoc) (sc : Settings × Bool) : Settings × Bool :=
  match doc.mdns_on with
  | none => sc
  | some b => ({ sc.1 with mdns_on := b }, true)

/-- Result of the settings-merge engine: the updated settings, the overall
`config_changed` flag it returns, and the peripheral calls it issued. -/
structure ApplyResult where
  sett : Settings
  changed : Bool
  calls : List (Nat × Nat)
  deriving DecidableEq

/-- Embedding of `apply_config_from_server`
(src/ESP8266/src/remote_config.cpp, lines 207-377): the per-field blocks
in source order, threading `(sett, config_changed)`; `i2cOk` is the result
of the one `masterI2C.setCountersType` call (made exactly when
`ctypeCalls` is nonempty). -/
def apply_config_from_server (lim : Limits) (sett : Settings) (doc : RemoteConfigDoc)
    (data : AttinyData) (i2cOk : Bool) : ApplyResult :=
  let sc := (sett, false)
  let sc := applyChannel0 doc sc
  let sc := applyChannel1 doc sc
  let sc := applySerial0 lim doc sc
  let sc := applySerial1 lim doc sc
  let sc := applyCname0 lim doc sc
  let sc := applyCname1 lim doc sc
  let sc := applyFactor0 doc sc
  let sc := applyFactor1 doc sc
  let sc := applyImpulses0 doc sc
  let sc := applyImpulses1 doc sc
  let sc := applyCtypePair lim doc data i2cOk sc
  let sc := applyWakeup doc sc
  let sc := applyWoc doc sc
  let sc := applySsid lim doc sc
  let sc := applyWifiPassword lim doc sc
  let sc := applyMqttOn doc sc
  let sc := applyMqttHost lim doc sc
  let sc := applyMqttPort doc sc
  let sc := applyMqttLogin lim doc sc
  let sc := applyMqttPassword lim doc sc
  let sc := applyMqttTopic lim doc sc
  let sc := applyHttpOn doc sc
  let sc := applyHttpUrl lim doc sc
  let sc := applyNtpServer lim doc sc
  let sc := applyWateriusHost lim doc sc
  let sc := applyWateriusKey lim doc sc
  let sc := applyWateriusEmail lim doc sc
  let sc := applyWateriusOn doc sc
  let sc := applyCompany lim doc sc
  let sc := applyPlace lim doc sc
  let sc := applyAutoDiscovery doc sc
  let sc := applyDiscoveryTopic lim doc sc
  let sc := applyDhcpOff doc sc
  let sc := applyStaticIp doc sc
  let sc := applyGateway doc sc
  let sc := applyMask doc sc
  let sc := applyMdnsOn doc sc
  { sett := sc.1, changed := sc.2, calls := ctypeCalls lim doc data }

/-- Observable actions of a wake cycle, used to state "X is skipped /
never invoked" claims: a pull-style `/cfg` fetch attempt, an invocation of
the response-embedded configuration check (`apply_config_from_response`),
an invocation of the merge engine (`apply_config_from_server`), the single
`setCountersType` peripheral call, a read of the persisted
`config_restart_pending` guard flag (with the value read), setting and
clearing that flag, a `store_config` persistence point, and a deliberate
`ESP.restart()`. -/
inductive Ev where
  | fetchCfg
  | embeddedCheck
  | mergeInvoked
  | i2cSet (ct0 ct1 : Nat)
  | readFlag (v : Bool)
  | setFlag
  | clearFlag
  | persist
  | restart
  deriving DecidableEq

/-- The events produced by one invocation of the merge engine. -/
def mergeEvents (r : ApplyResult) : List Ev :=
  Ev.mergeInvoked :: r.calls.map (fun p => Ev.i2cSet p.1 p.2)

/-- Result of one of the two configuration-application entry points: the
returned boolean, the settings afterwards, and the events produced. -/
structure CfgResult where
  ok : Bool
  sett : Settings
  evs : List Ev
  deriving DecidableEq

/-- Embedding of `fetch_and_apply_remote_config`
(src/ESP8266/src/remote_config.cpp, lines 398-424).  The network side
(`fetch_config_from_server`, which fails fast on an empty key, normalizes
the URL, POSTs `{key}` and funnels the response through
`validate_and_get_response` and the JSON parser) is an external
collaborator; its outcome arrives as `fetched` (`none` covers transport
failure, validator rejection and parse failure alike).  On a fetched
document the device key is validated first; only then is the merge engine
invoked, and `store_config` runs only when the merge reports a change. -/
def fetch_and_apply_remote_config (lim : Limits) (fetched : Option RemoteConfigDoc)
    (key : String) (sett : Settings) (data : AttinyData) (i2cOk : Bool) : CfgResult :=
  match fetched with
  | none => { ok := false, sett := sett, evs := [] }
  | some doc =>
    if validate_device_key doc key then
      let r := apply_config_from_server lim sett doc data i2cOk
      if r.changed then
        { ok := true, sett := r.sett, evs := mergeEvents r ++ [Ev.persist] }
      else
        { ok := false, sett := r.sett, evs := mergeEvents r }
    else
      { ok := false, sett := sett, evs := [] }

/-- Embedding of `apply_config_from_response`
(src/ESP8266/src/remote_config.cpp, lines 433-487): the body must be at
least 10 characters, at most `REMOTE_CONFIG_MAX_SIZE`, and start with a
brace or bracket; `parsed` is the outcome of `deserializeJson` on it
(`none` = parse error).  The device key is validated before any field is
consulted; `store_config` runs only when the merge reports a change. -/
def apply_config_from_response (lim : Limits) (response_body : String)
    (parsed : Option RemoteConfigDoc) (key : String) (sett : Settings)
    (data : AttinyData) (i2cOk : Bool) : CfgResult :=
  if response_body.length < 10 then { ok := false, sett := sett, evs := [] }
  else if lim.REMOTE_CONFIG_MAX_SIZE < response_body.length then
    { ok := false, sett := sett, evs := [] }
  else if ¬(response_body.startsWith "\x7b" || response_body.startsWith "[") then
    { ok := false, sett := sett, evs := [] }
  else
    match parsed with
    | none => { ok := false, sett := sett, evs := [] }
    | some doc =>
      if validate_device_key doc key then
        let r := apply_config_from_server lim sett doc data i2cOk
        if r.changed then
          { ok := true, sett := r.sett, evs := mergeEvents r ++ [Ev.persist] }
        else
          { ok := false, sett := r.sett, evs := mergeEvents r }
      else
        { ok := false, sett := sett, evs := [] }

/-- Modelled from the spec: `is_waterius_site` (declared in `utils.h`,
whose source is not provided) decides whether the waterius.ru cloud sender
is configured; per the spec's gating of the remote-service fields it holds
when the service is enabled and a host is set. -/
def is_waterius_site (sett : Settings) : Bool :=
  sett.waterius_on && sett.waterius_host != ""

/-- Result of one sender (`send_waterius` / `send_http`): the boolean the
function returns (success of the POST), the settings afterwards, the
events produced, and whether the sender restarted the device (in the
source `ESP.restart()` never returns; here the caller stops the cycle). -/
structure SenderResult where
  ok : Bool
  sett : Settings
  evs : List Ev
  restarted : Bool
  deriving DecidableEq

/-- Embedding of `send_waterius`
(src/ESP8266/src/senders/sender_waterius.h, lines 27-91).  The retry loop
around `post_data` (up to `HTTP_SEND_ATTEMPTS` attempts, each a fresh
connection) is collapsed into its net outcome `postOk` with the response
body and its parse result of the successful attempt.  On success, the
response-embedded configuration check runs only when the reboot-loop guard
flag is clear; if it reports a change the flag is set, settings are
persisted and the device restarts. -/
def send_waterius (lim : Limits) (sett : Settings) (data : AttinyData)
    (postOk : Bool) (body : String) (parsed : Option RemoteConfigDoc)
    (i2cOk : Bool) : SenderResult :=
  if !is_waterius_site sett then
    { ok := false, sett := sett, evs := [], restarted := false }
  else if postOk then
    if sett.config_restart_pending then
      { ok := true, sett := sett, evs := [Ev.readFlag true], restarted := false }
    else
      let r := apply_config_from_response lim body parsed sett.waterius_key sett data i2cOk
      if r.ok then
        { ok := true, sett := { r.sett with config_restart_pending := true },
          evs := [Ev.readFlag false, Ev.embeddedCheck] ++ r.evs ++ [Ev.setFlag, Ev.persist, Ev.restart],
          restarted := true }
      else
        { ok := true, sett := r.sett,
          evs := [Ev.readFlag false, Ev.embeddedCheck] ++ r.evs, restarted := false }
  else
    { ok := false, sett := sett, evs := [], restarted := false }

/-- Embedding of `send_http` (src/ESP8266/src/senders/sender_http.h,
lines 25-89), identical to `send_waterius` except for its enable guard
(`sett.http_on && sett.http_url[0]`) and target URL; the device key used
for the embedded configuration check is still `sett.waterius_key`. -/
def send_http (lim : Limits) (sett : Settings) (data : AttinyData)
    (postOk : Bool) (body : String) (parsed : Option RemoteConfigDoc)
    (i2cOk : Bool) : SenderResult :=
  if !(sett.http_on && sett.http_url != "") then
    { ok := false, sett := sett, evs := [], restarted := false }
  else if postOk then
    if sett.config_restart_pending then
      { ok := true, sett := sett, evs := [Ev.readFlag true], restarted := false }
    else
      let r := apply_config_from_response lim body parsed sett.waterius_key sett data i2cOk
      if r.ok then
        { ok := true, sett := { r.sett with config_restart_pending := true },
          evs := [Ev.readFlag false, Ev.embeddedCheck] ++ r.evs ++ [Ev.setFlag, Ev.persist, Ev.restart],
          restarted := true }
      else
        { ok := true, sett := r.sett,
          evs := [Ev.readFlag false, Ev.embeddedCheck] ++ r.evs, restarted := false }
  else
    { ok := false, sett := sett, evs := [], restarted := false }

/-- Embedding of the wake-on-consumption / heartbeat decision
(src/ESP8266/src/main.cpp, lines 111-149), reached only with
configuration loaded.  `manual` distinguishes `MANUAL_TRANSMIT_MODE` from
the scheduled `TRANSMIT_MODE`; the deltas are this cycle's consumption
deltas from `calculate_values`.  Returns the `skip_transmission` flag and
the settings (with impulse baselines advanced and the saturating
no-transmission counter incremented when skipping). -/
def woc_decision (sett : Settings) (data : AttinyData) (manual : Bool)
    (delta0 delta1 : Nat) : Bool × Settings :=
  if sett.wake_on_consumption_only && !manual then
    let has_consumption := decide (0 < delta0) || decide (0 < delta1)
    let maxw0 := (24 * 60) / sett.wakeup_per_min
    let maxw := if maxw0 = 0 then 1 else maxw0
    let heartbeat_needed := decide (maxw ≤ sett.wakeups_without_send)
    if !has_consumption && !heartbeat_needed then
      (true,
        { sett with
          impulses0_previous := data.impulses0,
          impulses1_previous := data.impulses1,
          wakeups_without_send :=
            if sett.wakeups_without_send < 65535 then
              sett.wakeups_without_send + 1
            else sett.wakeups_without_send })
    else (false, sett)
  else (false, sett)

/-- Modelled from the spec: `update_config` (in `config.cpp`, whose source
is not provided) performs end-of-cycle bookkeeping after a transmission
attempt; per the spec's data model it advances the impulse baselines so
the next cycle's deltas are computed from this cycle's readings.  It is
modelled as not touching the no-transmission counter: the counter reset
the sources show is the explicit one in `loop` (main.cpp lines 292-297),
which follows this call either way. -/
def update_config (sett : Settings) (data : AttinyData) : Settings :=
  { sett with impulses0_previous := data.impulses0, impulses1_previous := data.impulses1 }

/-- Accumulated outcome of one wake cycle: final settings, event trace,
and whether the cycle ended in a deliberate restart (instead of sleep). -/
structure CycleResult where
  sett : Settings
  trace : List Ev
  restarted : Bool
  deriving DecidableEq

/-- The end of the cycle (main.cpp lines 304-312): the reboot-loop guard
flag is read and, when set, cleared; then this cycle's settings are
persisted. -/
def finishCycle (sett : Settings) (tr : List Ev) : CycleResult :=
  if sett.config_restart_pending then
    { sett := { sett with config_restart_pending := false },
      trace := tr ++ [Ev.readFlag true, Ev.clearFlag, Ev.persist], restarted := false }
  else
    { sett := sett, trace := tr ++ [Ev.readFlag false, Ev.persist], restarted := false }

/-- The tail of the connected branch (main.cpp lines 290-312):
`update_config`, the explicit reset of the no-transmission counter
(performed whenever this point is reached, i.e. whenever WiFi connected
and transmission was not skipped, regardless of any sender's success),
then the common cycle end. -/
def afterCfg (sett : Settings) (data : AttinyData) (tr : List Ev) : CycleResult :=
  let s1 := update_config sett data
  let s2 :=
    if s1.wake_on_consumption_only && decide (0 < s1.wakeups_without_send) then
      { s1 with wakeups_without_send := 0 }
    else s1
  finishCycle s2 tr

/-- External inputs of one wake cycle: whether WiFi connected, the net
outcome of each sender's POST retry loop with the response body and its
parse result, the outcome of the pull-style `/cfg` fetch, and the result
of the peripheral counter-type call. -/
structure CycleOracle where
  wifiOk : Bool
  wtrPostOk : Bool
  wtrBody : String
  wtrParsed : Option RemoteConfigDoc
  httpPostOk : Bool
  httpBody : String
  httpParsed : Option RemoteConfigDoc
  cfgFetched : Option RemoteConfigDoc
  i2cOk : Bool
  deriving DecidableEq

/-- The manual-mode `/cfg` stage of `loop` (src/ESP8266/src/main.cpp,
lines 249-285), factored out of the cycle: the pull-style fetch runs only
on a manual wake with the reboot-loop guard flag clear, against the
waterius host if that sender is configured, otherwise against the HTTP
URL if enabled; a reported change sets the guard flag, persists the
settings and restarts; otherwise the cycle continues with the
end-of-cycle path (`afterCfg`).  `tr1` is the event trace accumulated so
far, already including the guard-flag read at lines 253/282. -/
def cfgStage (lim : Limits) (manual : Bool) (sett2 : Settings) (data : AttinyData)
    (o : CycleOracle) (tr1 : List Ev) : CycleResult :=
  if manual && !sett2.config_restart_pending then
    let fr :=
      if is_waterius_site sett2 then
        let r := fetch_and_apply_remote_config lim o.cfgFetched sett2.waterius_key sett2 data o.i2cOk
        ({ ok := r.ok, sett := r.sett, evs := Ev.fetchCfg :: r.evs } : CfgResult)
      else if sett2.http_on && sett2.http_url != "" then
        let r := fetch_and_apply_remote_config lim o.cfgFetched sett2.waterius_key sett2 data o.i2cOk
        ({ ok := r.ok, sett := r.sett, evs := Ev.fetchCfg :: r.evs } : CfgResult)
      else ({ ok := false, sett := sett2, evs := [] } : CfgResult)
    if fr.ok then
      { sett := { fr.sett with config_restart_pending := true },
        trace := tr1 ++ fr.evs ++ [Ev.setFlag, Ev.persist, Ev.restart],
        restarted := true }
    else afterCfg fr.sett data (tr1 ++ fr.evs)
  else afterCfg sett2 data tr1

/-- Embedding of one wake cycle of `loop` (src/ESP8266/src/main.cpp,
lines 55-336) for the two transmit modes (`TRANSMIT_MODE` /
`MANUAL_TRANSMIT_MODE`); the captive-portal `SETUP_MODE` branch is outside
the spec's scope and not modelled, and the MQTT sender, the NTP sync and
the final wake-period call are modelled as event-free (their sources are
not provided and no claim concerns them).  The trace starts with the
read of the guard flag at line 72; the pull-style `/cfg` fetch (lines
253-285) runs only on a manual wake with the guard flag clear, preferring
the waterius host and falling back to the HTTP URL; a reported change
sets the guard flag, persists and restarts. -/
def loop (lim : Limits) (config_loaded : Bool) (manual : Bool) (sett0 : Settings)
    (data : AttinyData) (o : CycleOracle) : CycleResult :=
  if !config_loaded then { sett := sett0, trace := [], restarted := false }
  else
    let tr0 := [Ev.readFlag sett0.config_restart_pending]
    let delta0 := data.impulses0 - sett0.impulses0_previous
    let delta1 := data.impulses1 - sett0.impulses1_previous
    let wd := woc_decision sett0 data manual delta0 delta1
    let sett1 := wd.2
    if wd.1 || !o.wifiOk then finishCycle sett1 tr0
    else
      let rw := send_waterius lim sett1 data o.wtrPostOk o.wtrBody o.wtrParsed o.i2cOk
      if rw.restarted then { sett := rw.sett, trace := tr0 ++ rw.evs, restarted := true }
      else
        let rh := send_http lim rw.sett data o.httpPostOk o.httpBody o.httpParsed o.i2cOk
        if rh.restarted then
          { sett := rh.sett, trace := tr0 ++ rw.evs ++ rh.evs, restarted := true }
        else
          cfgStage lim manual rh.sett data o
            (tr0 ++ rw.evs ++ rh.evs ++ [Ev.readFlag rh.sett.config_restart_pending])

/-!
The push-update path (src/ESP8266/src/ha/subscribe.cpp) works on Arduino
`String`s; the helpers below embed the Arduino core's `lastIndexOf`,
`substring`, `toInt` (= `atol`) and `toFloat` (= `atof`) with their C
semantics, including the `unsigned int` casts of negative indices.
-/

/-- Numeric value of a decimal digit character. -/
def digitVal (c : Char) : Nat := c.toNat - 48

/-- Parse the maximal leading run of decimal digits: value, digit count,
and the remaining characters. -/
def parseDigitsCnt : List Char → Nat × Nat × List Char
  | c :: cs =>
    if c.isDigit then
      let r := parseDigitsCnt cs
      (digitVal c * 10 ^ r.2.1 + r.1, r.2.1 + 1, r.2.2)
    else (0, 0, c :: cs)
  | [] => (0, 0, [])

/-- The whitespace characters `isspace` accepts. -/
def isSpaceC (c : Char) : Bool :=
  c = ' ' || c = '\t' || c = '\n' || c = '\r' || c = '\x0b' || c = '\x0c'

/-- Embedding of `atol` (behind Arduino `String::toInt`): skip leading
whitespace, optional sign, then the maximal digit run; `0` when no digits
follow. -/
def atolZ (l : List Char) : Int :=
  let l := l.dropWhile isSpaceC
  match l with
  | '-' :: rest => -((parseDigitsCnt rest).1 : Int)
  | '+' :: rest => ((parseDigitsCnt rest).1 : Int)
  | _ => ((parseDigitsCnt l).1 : Int)

/-- The syntactic pieces `atof` extracts from a string: sign, integer
part, fraction digits (value and count), exponent sign and value.  Kept
separate from the rational assembly so that parsing is a pure
`Nat`/`Bool` computation. -/
structure FloatParts where
  neg : Bool
  ip : Nat
  fp : Nat
  fpd : Nat
  eneg : Bool
  ev : Nat
  deriving DecidableEq

/-- Parsing phase of `atof`: whitespace, optional sign, integer digits,
optional `.` fraction, optional decimal exponent. -/
def atofParts (l : List Char) : FloatParts :=
  let l := l.dropWhile isSpaceC
  let sl : Bool × List Char :=
    match l with
    | '-' :: rest => (true, rest)
    | '+' :: rest => (false, rest)
    | _ => (false, l)
  let ipr := parseDigitsCnt sl.2
  let fpr : Nat × Nat × List Char :=
    match ipr.2.2 with
    | '.' :: rest => parseDigitsCnt rest
    | _ => (0, 0, ipr.2.2)
  let epr : Bool × Nat :=
    match fpr.2.2 with
    | 'e' :: '-' :: rest => (true, (parseDigitsCnt rest).1)
    | 'E' :: '-' :: rest => (true, (parseDigitsCnt rest).1)
    | 'e' :: '+' :: rest => (false, (parseDigitsCnt rest).1)
    | 'E' :: '+' :: rest => (false, (parseDigitsCnt rest).1)
    | 'e' :: rest => (false, (parseDigitsCnt rest).1)
    | 'E' :: rest => (false, (parseDigitsCnt rest).1)
    | _ => (false, 0)
  { neg := sl.1, ip := ipr.1, fp := fpr.1, fpd := fpr.2.1, eneg := epr.1, ev := epr.2 }

/-- Embedding of `atof` (behind Arduino `String::toFloat`) over exact
rationals: the parsed pieces assembled as
`±(ip + fp / 10^fpd) · 10^(±ev)`; `0` when no digits are found. -/
def atofQ (l : List Char) : ℚ :=
  let p := atofParts l
  let base : ℚ := (if p.neg then -1 else 1) * ((p.ip : ℚ) + (p.fp : ℚ) / (10 ^ p.fpd : ℚ))
  if p.eneg then base / (10 ^ p.ev : ℚ) else base * (10 ^ p.ev : ℚ)

/-- Arduino `String::toInt`. -/
def strToInt (s : String) : Int := atolZ s.data

/-- Arduino `String::toFloat`. -/
def strToFloat (s : String) : ℚ := atofQ s.data

/-- Index of the last occurrence of `c` among positions `0..upTo` of the
list, or `-1`. -/
def lastIndexOfUpTo (c : Char) : List Char → Nat → Int
  | [], _ => -1
  | x :: _, 0 => if x = c then 0 else -1
  | x :: xs, n + 1 =>
    let r := lastIndexOfUpTo c xs n
    if 0 ≤ r then r + 1 else if x = c then 0 else -1

/-- Arduino `String::lastIndexOf(ch, fromIndex)`: `fromIndex` is cast to
`unsigned int`, so a negative index compares `≥ len` and yields `-1`. -/
def strLastIndexOfFrom (l : List Char) (c : Char) (fromIndex : Int) : Int :=
  if fromIndex < 0 || (l.length : Int) ≤ fromIndex then -1
  else lastIndexOfUpTo c l fromIndex.toNat

/-- Arduino `String::lastIndexOf(ch)` = `lastIndexOf(ch, len - 1)` with
the same unsigned-cast behaviour for the empty string. -/
def strLastIndexOf (l : List Char) (c : Char) : Int :=
  strLastIndexOfFrom l c ((l.length : Int) - 1)

/-- A 32-bit `unsigned int` cast of a C `int`. -/
def toUnsigned32 (i : Int) : Nat := (i % 4294967296).toNat

/-- Arduino `String::substring(left, right)`: unsigned arguments, swapped
when out of order, clamped to the length; returns `[left, right)`. -/
def arduinoSubstring (l : List Char) (left right : Int) : List Char :=
  let lu := toUnsigned32 left
  let ru := toUnsigned32 right
  let lo := if ru < lu then ru else lu
  let hi := if ru < lu then lu else ru
  if l.length ≤ lo then []
  else
    let hi := if l.length < hi then l.length else hi
    (l.drop lo).take (hi - lo)

/-- Arduino `String::endsWith(suffix)`: the string is at least as long as
the suffix and its tail equals it. -/
def strEndsWith (s suffix : String) : Bool := suffix.data.isSuffixOf s.data

/-- The parameter-name extraction of `update_settings`
(src/ESP8266/src/ha/subscribe.cpp, lines 59-61): the text between the
last two slashes of the topic. -/
def extractParam (topic : String) : String :=
  let l := topic.data
  let endslash := strLastIndexOf l '/'
  let prevslash := strLastIndexOfFrom l '/' (endslash - 1)
  ⟨arduinoSubstring l (prevslash + 1) endslash⟩

/-- Embedding of `MqttCounterContext`
(src/ESP8266/src/ha/subscribe.cpp, lines 16-31): the session context
tracking the currently intended counter types during one MQTT session,
`-1` meaning not yet initialized.  The C++ global `mqtt_ctx` is passed
explicitly through `update_settings`. -/
structure MqttCounterContext where
  ctype0 : Int := -1
  ctype1 : Int := -1
  deriving DecidableEq

/-- `MqttCounterContext::init`: lazily fill each uninitialized member from
the peripheral snapshot. -/
def MqttCounterContext.init (ctx : MqttCounterContext) (data : AttinyData) : MqttCounterContext :=
  { ctype0 := if ctx.ctype0 < 0 then (data.counter_type0 : Int) else ctx.ctype0,
    ctype1 := if ctx.ctype1 < 0 then (data.counter_type1 : Int) else ctx.ctype1 }

/-- `reset_mqtt_counter_context` / `MqttCounterContext::reset`: both
members back to the uninitialized sentinel. -/
def reset_mqtt_counter_context : MqttCounterContext := {}

/-- The JSON data document `update_settings` echoes acknowledged values
into: each field is present (`some`) when `json_data["name"].is<T>()`
holds for the type the source tests. -/
structure JsonEcho where
  period_min : Option Int := none
  f0 : Option Int := none
  f1 : Option Int := none
  ch0 : Option ℚ := none
  ch1 : Option ℚ := none
  cname0 : Option Int := none
  cname1 : Option Int := none
  data_type0 : Option Int := none
  data_type1 : Option Int := none
  ctype0 : Option Int := none
  ctype1 : Option Int := none
  deriving DecidableEq

/-- Modelled from the spec: `data_type_by_name` (declared in `utils.h`,
whose source is not provided) maps a counter-name code to the data-type
code echoed alongside it; no claim depends on the mapping's values, so it
is modelled as the identity on codes. -/
def data_type_by_name (cname : Int) : Int := cname

/-- A C `(int)` cast of a floating value: truncation toward zero, here on
exact rationals. -/
def cIntOfRat (q : ℚ) : Int :=
  if q < 0 then -(((-q).num.toNat / (-q).den : Nat) : Int)
  else ((q.num.toNat / q.den : Nat) : Int)

/-- Result of `update_settings`: the returned `updated` flag, settings,
the session counter context afterwards, the echo document, and the
`setCountersType` calls issued (as the C `int` pairs passed). -/
structure UpdateResult where
  updated : Bool
  sett : Settings
  ctx : MqttCounterContext
  json : JsonEcho
  calls : List (Int × Int)
  deriving DecidableEq

/-- Embedding of `update_settings`
(src/ESP8266/src/ha/subscribe.cpp, lines 49-229).  The context is
initialized from the snapshot first (line 54); only topics ending in
`/set` are commands; the parameter is the final path segment; each branch
follows the source, including which branches touch `setup_time`, which
echo only when the JSON data already carries the field with the tested
type, and the `uint16_t`/`uint8_t` truncation of assigned `int` values.
`i2cOk` is the result of the (at most one) `setCountersType` call. -/
def update_settings (topic payload : String) (sett : Settings) (data : AttinyData)
    (ctx0 : MqttCounterContext) (json : JsonEcho) (i2cOk : Bool) : UpdateResult :=
  let ctx := ctx0.init data
  if strEndsWith topic "/set" then
    let param := extractParam topic
    if param = "period_min" then
      let period_min := strToInt payload
      if 0 < period_min then
        if (sett.wakeup_per_min : Int) ≠ period_min then
          let sett := reset_period_min_tuned
            { sett with wakeup_per_min := (period_min % 65536).toNat }
          match json.period_min with
          | some _ =>
            { updated := true, sett := sett, ctx := ctx,
              json := { json with period_min := some period_min }, calls := [] }
          | none => { updated := false, sett := sett, ctx := ctx, json := json, calls := [] }
        else { updated := false, sett := sett, ctx := ctx, json := json, calls := [] }
      else { updated := false, sett := sett, ctx := ctx, json := json, calls := [] }
    else if param = "f0" then
      let f0 := strToInt payload
      if 0 < f0 then
        if (sett.factor0 : Int) ≠ f0 then
          let sett := { sett with factor0 := (f0 % 65536).toNat, setup_time := 0 }
          match json.f0 with
          | some _ =>
            { updated := true, sett := sett, ctx := ctx,
              json := { json with f0 := some f0 }, calls := [] }
          | none => { updated := false, sett := sett, ctx := ctx, json := json, calls := [] }
        else { updated := false, sett := sett, ctx := ctx, json := json, calls := [] }
      else { updated := false, sett := sett, ctx := ctx, json := json, calls := [] }
    else if param = "f1" then
      let f1 := strToInt payload
      if 0 < f1 then
        if (sett.factor1 : Int) ≠ f1 then
          let sett := { sett with factor1 := (f1 % 65536).toNat, setup_time := 0 }
          match json.f1 with
          | some _ =>
            { updated := true, sett := sett, ctx := ctx,
              json := { json with f1 := some f1 }, calls := [] }
          | none => { updated := false, sett := sett, ctx := ctx, json := json, calls := [] }
        else { updated := false, sett := sett, ctx := ctx, json := json, calls := [] }
      else { updated := false, sett := sett, ctx := ctx, json := json, calls := [] }
    else if param = "ch0" then
      let ch0 := strToFloat payload
      if 0 ≤ ch0 then
        let sett := { sett with
          channel0_start := ch0, impulses0_start := data.impulses0, setup_time := 0 }
        match json.ch0 with
        | some _ =>
          { updated := true, sett := sett, ctx := ctx,
            json := { json with ch0 := some ((cIntOfRat (ch0 * 1000 + 5) : ℚ) / 1000) },
            calls := [] }
        | none => { updated := true, sett := sett, ctx := ctx, json := json, calls := [] }
      else { updated := false, sett := sett, ctx := ctx, json := json, calls := [] }
    else if param = "ch1" then
      let ch1 := strToFloat payload
      if 0 ≤ ch1 then
        let sett := { sett with
          channel1_start := ch1, impulses1_start := data.impulses1, setup_time := 0 }
        match json.ch1 with
        | some _ =>
          { updated := true, sett := sett, ctx := ctx,
            json := { json with ch1 := some ((cIntOfRat (ch1 * 1000 + 5) : ℚ) / 1000) },
            calls := [] }
        | none => { updated := true, sett := sett, ctx := ctx, json := json, calls := [] }
      else { updated := false, sett := sett, ctx := ctx, json := json, calls := [] }
    else if param = "cname0" then
      let cname0 := strToInt payload
      if (sett.counter0_name : Int) ≠ cname0 then
        let sett := { sett with counter0_name := (cname0 % 256).toNat, setup_time := 0 }
        let u1 := json.cname0.isSome
        let json := if u1 then { json with cname0 := some cname0 } else json
        let u2 := json.data_type0.isSome
        let json := if u2 then { json with data_type0 := some (data_type_by_name cname0) } else json
        { updated := u1 || u2, sett := sett, ctx := ctx, json := json, calls := [] }
      else { updated := false, sett := sett, ctx := ctx, json := json, calls := [] }
    else if param = "cname1" then
      let cname1 := strToInt payload
      if (sett.counter1_name : Int) ≠ cname1 then
        let sett := { sett with counter1_name := (cname1 % 256).toNat, setup_time := 0 }
        let u1 := json.cname1.isSome
        let json := if u1 then { json with cname1 := some cname1 } else json
        let u2 := json.data_type1.isSome
        let json := if u2 then { json with data_type1 := some (data_type_by_name cname1) } else json
        { updated := u1 || u2, sett := sett, ctx := ctx, json := json, calls := [] }
      else { updated := false, sett := sett, ctx := ctx, json := json, calls := [] }
    else if param = "ctype0" then
      let v := strToInt payload
      if ctx.ctype0 ≠ v then
        if i2cOk then
          { updated := true,
            sett := { sett with setup_time := 0 },
            ctx := { ctx with ctype0 := v },
            json := if json.ctype0.isSome then { json with ctype0 := some v } else json,
            calls := [(v, ctx.ctype1)] }
        else
          { updated := false, sett := { sett with setup_time := 0 }, ctx := ctx,
            json := json, calls := [(v, ctx.ctype1)] }
      else { updated := false, sett := sett, ctx := ctx, json := json, calls := [] }
    else if param = "ctype1" then
      let v := strToInt payload
      if ctx.ctype1 ≠ v then
        if i2cOk then
          { updated := true,
            sett := { sett with setup_time := 0 },
            ctx := { ctx with ctype1 := v },
            json := if json.ctype1.isSome then { json with ctype1 := some v } else json,
            calls := [(ctx.ctype0, v)] }
        else
          { updated := false, sett := { sett with setup_time := 0 }, ctx := ctx,
            json := json, calls := [(ctx.ctype0, v)] }
      else { updated := false, sett := sett, ctx := ctx, json := json, calls := [] }
    else { updated := false, sett := sett, ctx := ctx, json := json, calls := [] }
  else { updated := false, sett := sett, ctx := ctx, json := json, calls := [] }

/-!
Per-stage frame lemmas for the merge engine: each stage leaves the
projections it does not target unchanged (`_pres`), and each stage reads
only its own document field, so it is invariant under changing the
`channel0` / `ctype0` / `ctype1` fields of the document (`_indep`).
These feed the field-independence claims C4 and C6 and the guard-flag
preservation needed by C3.
-/

@[simp] theorem applyChannel0_pres (doc : RemoteConfigDoc) (sc : Settings × Bool) :
    (applyChannel0 doc sc).1.mqtt_on = sc.1.mqtt_on ∧
    (applyChannel0 doc sc).1.mqtt_port = sc.1.mqtt_port ∧
    (applyChannel0 doc sc).1.config_restart_pending = sc.1.config_restart_pending := by
  unfold applyChannel0
  refine ⟨?_, ?_, ?_⟩ <;> (repeat' split) <;> rfl

@[simp] theorem applyChannel0_indep (doc : RemoteConfigDoc) (sc : Settings × Bool)
    (t0 t1 : Option Nat) :
    applyChannel0 { doc with ctype0 := t0, ctype1 := t1 } sc
      = applyChannel0 doc sc := rfl

@[simp] theorem applyChannel1_pres (doc : RemoteConfigDoc) (sc : Settings × Bool) :
    (applyChannel1 doc sc).1.channel0_start = sc.1.channel0_start ∧
    (applyChannel1 doc sc).1.mqtt_on = sc.1.mqtt_on ∧
    (applyChannel1 doc sc).1.mqtt_port = sc.1.mqtt_port ∧
    (applyChannel1 doc sc).1.config_restart_pending = sc.1.config_restart_pending := by
  unfold applyChannel1
  refine ⟨?_, ?_, ?_, ?_⟩ <;> (repeat' split) <;> rfl

@[simp] theorem applyChannel1_indep (doc : RemoteConfigDoc) (sc : Settings × Bool)
    (c : Option ℚ) (t0 t1 : Option Nat) :
    applyChannel1 { doc with channel0 := c, ctype0 := t0, ctype1 := t1 } sc
      = applyChannel1 doc sc := rfl

@[simp] theorem applySerial0_pres (lim : Limits) (doc : RemoteConfigDoc) (sc : Settings × Bool) :
    (applySerial0 lim doc sc).1.channel0_start = sc.1.channel0_start ∧
    (applySerial0 lim doc sc).1.mqtt_on = sc.1.mqtt_on ∧
    (applySerial0 lim doc sc).1.mqtt_port = sc.1.mqtt_port ∧
    (applySerial0 lim doc sc).1.config_restart_pending = sc.1.config_restart_pending := by
  unfold applySerial0
  refine ⟨?_, ?_, ?_, ?_⟩ <;> (repeat' split) <;> rfl

@[simp] theorem applySerial0_indep (lim : Limits) (doc : RemoteConfigDoc) (sc : Settings × Bool)
    (c : Option ℚ) (t0 t1 : Option Nat) :
    applySerial0 lim { doc with channel0 := c, ctype0 := t0, ctype1 := t1 } sc
      = applySerial0 lim doc sc := rfl

@[simp] theorem applySerial1_pres (lim : Limits) (doc : RemoteConfigDoc) (sc : Settings × Bool) :
    (applySerial1 lim doc sc).1.channel0_start = sc.1.channel0_start ∧
    (applySerial1 lim doc sc).1.mqtt_on = sc.1.mqtt_on ∧
    (applySerial1 lim doc sc).1.mqtt_port = sc.1.mqtt_port ∧
    (applySerial1 lim doc sc).1.config_restart_pending = sc.1.config_restart_pending := by
  unfold applySerial1
  refine ⟨?_, ?_, ?_, ?_⟩ <;> (repeat' split) <;> rfl

@[simp] theorem applySerial1_indep (lim : Limits) (doc : RemoteConfigDoc) (sc : Settings × Bool)
    (c : Option ℚ) (t0 t1 : Option Nat) :
    applySerial1 lim { doc with channel0 := c, ctype0 := t0, ctype1 := t1 } sc
      = applySerial1 lim doc sc := rfl

@[simp] theorem applyCname0_pres (lim : Limits) (doc : RemoteConfigDoc) (sc : Settings × Bool) :
    (applyCname0 lim doc sc).1.channel0_start = sc.1.channel0_start ∧
    (applyCname0 lim doc sc).1.mqtt_on = sc.1.mqtt_on ∧
    (applyCname0 lim doc sc).1.mqtt_port = sc.1.mqtt_port ∧
    (applyCname0 lim doc sc).1.config_restart_pending = sc.1.config_restart_pending := by
  unfold applyCname0
  refine ⟨?_, ?_, ?_, ?_⟩ <;> (repeat' split) <;> rfl

@[simp] theorem applyCname0_indep (lim : Limits) (doc : RemoteConfigDoc) (sc : Settings × Bool)
    (c : Option ℚ) (t0 t1 : Option Nat) :
    applyCname0 lim { doc with channel0 := c, ctype0 := t0, ctype1 := t1 } sc
      = applyCname0 lim doc sc := rfl

@[simp] theorem applyCname1_pres (lim : Limits) (doc : RemoteConfigDoc) (sc : Settings × Bool) :
    (applyCname1 lim doc sc).1.channel0_start = sc.1.channel0_start ∧
    (applyCname1 lim doc sc).1.mqtt_on = sc.1.mqtt_on ∧
    (applyCname1 lim doc sc).1.mqtt_port = sc.1.mqtt_port ∧
    (applyCname1 lim doc sc).1.config_restart_pending = sc.1.config_restart_pending := by
  unfold applyCname1
  refine ⟨?_, ?_, ?_, ?_⟩ <;> (repeat' split) <;> rfl

@[simp] theorem applyCname1_indep (lim : Limits) (doc : RemoteConfigDoc) (sc : Settings × Bool)
    (c : Option ℚ) (t0 t1 : Option Nat) :
    applyCname1 lim { doc with channel0 := c, ctype0 := t0, ctype1 := t1 } sc
      = applyCname1 lim doc sc := rfl

@[simp] theorem applyFactor0_pres (doc : RemoteConfigDoc) (sc : Settings × Bool) :
    (applyFactor0 doc sc).1.channel0_start = sc.1.channel0_start ∧
    (applyFactor0 doc sc).1.mqtt_on = sc.1.mqtt_on ∧
    (applyFactor0 doc sc).1.mqtt_port = sc.1.mqtt_port ∧
    (applyFactor0 doc sc).1.config_restart_pending = sc.1.config_restart_pending := by
  unfold applyFactor0
  refine ⟨?_, ?_, ?_, ?_⟩ <;> (repeat' split) <;> rfl

@[simp] theorem applyFactor0_indep (doc : RemoteConfigDoc) (sc : Settings × Bool)
    (c : Option ℚ) (t0 t1 : Option Nat) :
    applyFactor0 { doc with channel0 := c, ctype0 := t0, ctype1 := t1 } sc
      = applyFactor0 doc sc := rfl

@[simp] theorem applyFactor1_pres (doc : RemoteConfigDoc) (sc : Settings × Bool) :
    (applyFactor1 doc sc).1.channel0_start = sc.1.channel0_start ∧
    (applyFactor1 doc sc).1.mqtt_on = sc.1.mqtt_on ∧
    (applyFactor1 doc sc).1.mqtt_port = sc.1.mqtt_port ∧
    (applyFactor1 doc sc).1.config_restart_pending = sc.1.config_restart_pending := by
  unfold applyFactor1
  refine ⟨?_, ?_, ?_, ?_⟩ <;> (repeat' split) <;> rfl

@[simp] theorem applyFactor1_indep (doc : RemoteConfigDoc) (sc : Settings × Bool)
    (c : Option ℚ) (t0 t1 : Option Nat) :
    applyFactor1 { doc with channel0 := c, ctype0 := t0, ctype1 := t1 } sc
      = applyFactor1 doc sc := rfl

@[simp] theorem applyImpulses0_pres (doc : RemoteConfigDoc) (sc : Settings × Bool) :
    (applyImpulses0 doc sc).1.channel0_start = sc.1.channel0_start ∧
    (applyImpulses0 doc sc).1.mqtt_on = sc.1.mqtt_on ∧
    (applyImpulses0 doc sc).1.mqtt_port = sc.1.mqtt_port ∧
    (applyImpulses0 doc sc).1.config_restart_pending = sc.1.config_restart_pending := by
  unfold applyImpulses0
  refine ⟨?_, ?_, ?_, ?_⟩ <;> (repeat' split) <;> rfl

@[simp] theorem applyImpulses0_indep (doc : RemoteConfigDoc) (sc : Settings × Bool)
    (c : Option ℚ) (t0 t1 : Option Nat) :
    applyImpulses0 { doc with channel0 := c, ctype0 := t0, ctype1 := t1 } sc
      = applyImpulses0 doc sc := rfl

@[simp] theorem applyImpulses1_pres (doc : RemoteConfigDoc) (sc : Settings × Bool) :
    (applyImpulses1 doc sc).1.channel0_start = sc.1.channel0_start ∧
    (applyImpulses1 doc sc).1.mqtt_on = sc.1.mqtt_on ∧
    (applyImpulses1 doc sc).1.mqtt_port = sc.1.mqtt_port ∧
    (applyImpulses1 doc sc).1.config_restart_pending = sc.1.config_restart_pending := by
  unfold applyImpulses1
  refine ⟨?_, ?_, ?_, ?_⟩ <;> (repeat' split) <;> rfl

@[simp] theorem applyImpulses1_indep (doc : RemoteConfigDoc) (sc : Settings × Bool)
    (c : Option ℚ) (t0 t1 : Option Nat) :
    applyImpulses1 { doc with channel0 := c, ctype0 := t0, ctype1 := t1 } sc
      = applyImpulses1 doc sc := rfl

@[simp] theorem applyWakeup_pres (doc : RemoteConfigDoc) (sc : Settings × Bool) :
    (applyWakeup doc sc).1.channel0_start = sc.1.channel0_start ∧
    (applyWakeup doc sc).1.mqtt_on = sc.1.mqtt_on ∧
    (applyWakeup doc sc).1.mqtt_port = sc.1.mqtt_port ∧
    (applyWakeup doc sc).1.config_restart_pending = sc.1.config_restart_pending := by
  unfold applyWakeup reset_period_min_tuned
  refine ⟨?_, ?_, ?_, ?_⟩ <;> (repeat' split) <;> rfl

@[simp] theorem applyWakeup_indep (doc : RemoteConfigDoc) (sc : Settings × Bool)
    (c : Option ℚ) (t0 t1 : Option Nat) :
    applyWakeup { doc with channel0 := c, ctype0 := t0, ctype1 := t1 } sc
      = applyWakeup doc sc := rfl

@[simp] theorem applyWoc_pres (doc : RemoteConfigDoc) (sc : Settings × Bool) :
    (applyWoc doc sc).1.channel0_start = sc.1.channel0_start ∧
    (applyWoc doc sc).1.mqtt_on = sc.1.mqtt_on ∧
    (applyWoc doc sc).1.mqtt_port = sc.1.mqtt_port ∧
    (applyWoc doc sc).1.config_restart_pending = sc.1.config_restart_pending := by
  unfold applyWoc
  refine ⟨?_, ?_, ?_, ?_⟩ <;> (repeat' split) <;> rfl

@[simp] theorem applyWoc_indep (doc : RemoteConfigDoc) (sc : Settings × Bool)
    (c : Option ℚ) (t0 t1 : Option Nat) :
    applyWoc { doc with channel0 := c, ctype0 := t0, ctype1 := t1 } sc
      = applyWoc doc sc := rfl

@[simp] theorem applySsid_pres (lim : Limits) (doc : RemoteConfigDoc) (sc : Settings × Bool) :
    (applySsid lim doc sc).1.channel0_start = sc.1.channel0_start ∧
    (applySsid lim doc sc).1.mqtt_on = sc.1.mqtt_on ∧
    (applySsid lim doc sc).1.mqtt_port = sc.1.mqtt_port ∧
    (applySsid lim doc sc).1.config_restart_pending = sc.1.config_restart_pending := by
  unfold applySsid
  refine ⟨?_, ?_, ?_, ?_⟩ <;> (repeat' split) <;> rfl

@[simp] theorem applySsid_indep (lim : Limits) (doc : RemoteConfigDoc) (sc : Settings × Bool)
    (c : Option ℚ) (t0 t1 : Option Nat) :
    applySsid lim { doc with channel0 := c, ctype0 := t0, ctype1 := t1 } sc
      = applySsid lim doc sc := rfl

@[simp] theorem applyWifiPassword_pres (lim : Limits) (doc : RemoteConfigDoc) (sc : Settings × Bool) :
    (applyWifiPassword lim doc sc).1.channel0_start = sc.1.channel0_start ∧
    (applyWifiPassword lim doc sc).1.mqtt_on = sc.1.mqtt_on ∧
    (applyWifiPassword lim doc sc).1.mqtt_port = sc.1.mqtt_port ∧
    (applyWifiPassword lim doc sc).1.config_restart_pending = sc.1.config_restart_pending := by
  unfold applyWifiPassword
  refine ⟨?_, ?_, ?_, ?_⟩ <;> (repeat' split) <;> rfl

@[simp] theorem applyWifiPassword_indep (lim : Limits) (doc : RemoteConfigDoc) (sc : Settings × Bool)
    (c : Option ℚ) (t0 t1 : Option Nat) :
    applyWifiPassword lim { doc with channel0 := c, ctype0 := t0, ctype1 := t1 } sc
      = applyWifiPassword lim doc sc := rfl

@[simp] theorem applyMqttOn_pres (doc : RemoteConfigDoc) (sc : Settings × Bool) :
    (applyMqttOn doc sc).1.channel0_start = sc.1.channel0_start ∧
    (applyMqttOn doc sc).1.mqtt_port = sc.1.mqtt_port ∧
    (applyMqttOn doc sc).1.config_restart_pending = sc.1.config_restart_pending := by
  unfold applyMqttOn
  refine ⟨?_, ?_, ?_⟩ <;> (repeat' split) <;> rfl

@[simp] theorem applyMqttOn_indep (doc : RemoteConfigDoc) (sc : Settings × Bool)
    (c : Option ℚ) (t0 t1 : Option Nat) :
    applyMqttOn { doc with channel0 := c, ctype0 := t0, ctype1 := t1 } sc
      = applyMqttOn doc sc := rfl

@[simp] theorem applyMqttHost_pres (lim : Limits) (doc : RemoteConfigDoc) (sc : Settings × Bool) :
    (applyMqttHost lim doc sc).1.channel0_start = sc.1.channel0_start ∧
    (applyMqttHost lim doc sc).1.mqtt_on = sc.1.mqtt_on ∧
    (applyMqttHost lim doc sc).1.mqtt_port = sc.1.mqtt_port ∧
    (applyMqttHost lim doc sc).1.config_restart_pending = sc.1.config_restart_pending := by
  unfold applyMqttHost
  refine ⟨?_, ?_, ?_, ?_⟩ <;> (repeat' split) <;> rfl

@[simp] theorem applyMqttHost_indep (lim : Limits) (doc : RemoteConfigDoc) (sc : Settings × Bool)
    (c : Option ℚ) (t0 t1 : Option Nat) :
    applyMqttHost lim { doc with channel0 := c, ctype0 := t0, ctype1 := t1 } sc
      = applyMqttHost lim doc sc := rfl

@[simp] theorem applyMqttPort_pres (doc : RemoteConfigDoc) (sc : Settings × Bool) :
    (applyMqttPort doc sc).1.channel0_start = sc.1.channel0_start ∧
    (applyMqttPort doc sc).1.mqtt_on = sc.1.mqtt_on ∧
    (applyMqttPort doc sc).1.config_restart_pending = sc.1.config_restart_pending := by
  unfold applyMqttPort
  refine ⟨?_, ?_, ?_⟩ <;> (repeat' split) <;> rfl

@[simp] theorem applyMqttPort_indep (doc : RemoteConfigDoc) (sc : Settings × Bool)
    (c : Option ℚ) (t0 t1 : Option Nat) :
    applyMqttPort { doc with channel0 := c, ctype0 := t0, ctype1 := t1 } sc
      = applyMqttPort doc sc := rfl

@[simp] theorem applyMqttLogin_pres (lim : Limits) (doc : RemoteConfigDoc) (sc : Settings × Bool) :
    (applyMqttLogin lim doc sc).1.channel0_start = sc.1.channel0_start ∧
    (applyMqttLogin lim doc sc).1.mqtt_on = sc.1.mqtt_on ∧
    (applyMqttLogin lim doc sc).1.mqtt_port = sc.1.mqtt_port ∧
    (applyMqttLogin lim doc sc).1.config_restart_pending = sc.1.config_restart_pending := by
  unfold applyMqttLogin
  refine ⟨?_, ?_, ?_, ?_⟩ <;> (repeat' split) <;> rfl

@[simp] theorem applyMqttLogin_indep (lim : Limits) (doc : RemoteConfigDoc) (sc : Settings × Bool)
    (c : Option ℚ) (t0 t1 : Option Nat) :
    applyMqttLogin lim { doc with channel0 := c, ctype0 := t0, ctype1 := t1 } sc
      = applyMqttLogin lim doc sc := rfl

@[simp] theorem applyMqttPassword_pres (lim : Limits) (doc : RemoteConfigDoc) (sc : Settings × Bool) :
    (applyMqttPassword lim doc sc).1.channel0_start = sc.1.channel0_start ∧
    (applyMqttPassword lim doc sc).1.mqtt_on = sc.1.mqtt_on ∧
    (applyMqttPassword lim doc sc).1.mqtt_port = sc.1.mqtt_port ∧
    (applyMqttPassword lim doc sc).1.config_restart_pending = sc.1.config_restart_pending := by
  unfold applyMqttPassword
  refine ⟨?_, ?_, ?_, ?_⟩ <;> (repeat' split) <;> rfl

@[simp] theorem applyMqttPassword_indep (lim : Limits) (doc : RemoteConfigDoc) (sc : Settings × Bool)
    (c : Option ℚ) (t0 t1 : Option Nat) :
    applyMqttPassword lim { doc with channel0 := c, ctype0 := t0, ctype1 := t1 } sc
      = applyMqttPassword lim doc sc := rfl

@[simp] theorem applyMqttTopic_pres (lim : Limits) (doc : RemoteConfigDoc) (sc : Settings × Bool) :
    (applyMqttTopic lim doc sc).1.channel0_start = sc.1.channel0_start ∧
    (applyMqttTopic lim doc sc).1.mqtt_on = sc.1.mqtt_on ∧
    (applyMqttTopic lim doc sc).1.mqtt_port = sc.1.mqtt_port ∧
    (applyMqttTopic lim doc sc).1.config_restart_pending = sc.1.config_restart_pending := by
  unfold applyMqttTopic
  refine ⟨?_, ?_, ?_, ?_⟩ <;> (repeat' split) <;> rfl

@[simp] theorem applyMqttTopic_indep (lim : Limits) (doc : RemoteConfigDoc) (sc : Settings × Bool)
    (c : Option ℚ) (t0 t1 : Option Nat) :
    applyMqttTopic lim { doc with channel0 := c, ctype0 := t0, ctype1 := t1 } sc
      = applyMqttTopic lim doc sc := rfl

@[simp] theorem applyHttpOn_pres (doc : RemoteConfigDoc) (sc : Settings × Bool) :
    (applyHttpOn doc sc).1.channel0_start = sc.1.channel0_start ∧
    (applyHttpOn doc sc).1.mqtt_on = sc.1.mqtt_on ∧
    (applyHttpOn doc sc).1.mqtt_port = sc.1.mqtt_port ∧
    (applyHttpOn doc sc).1.config_restart_pending = sc.1.config_restart_pending := by
  unfold applyHttpOn
  refine ⟨?_, ?_, ?_, ?_⟩ <;> (repeat' split) <;> rfl

@[simp] theorem applyHttpOn_indep (doc : RemoteConfigDoc) (sc : Settings × Bool)
    (c : Option ℚ) (t0 t1 : Option Nat) :
    applyHttpOn { doc with channel0 := c, ctype0 := t0, ctype1 := t1 } sc
      = applyHttpOn doc sc := rfl

@[simp] theorem applyHttpUrl_pres (lim : Limits) (doc : RemoteConfigDoc) (sc : Settings × Bool) :
    (applyHttpUrl lim doc sc).1.channel0_start = sc.1.channel0_start ∧
    (applyHttpUrl lim doc sc).1.mqtt_on = sc.1.mqtt_on ∧
    (applyHttpUrl lim doc sc).1.mqtt_port = sc.1.mqtt_port ∧
    (applyHttpUrl lim doc sc).1.config_restart_pending = sc.1.config_restart_pending := by
  unfold applyHttpUrl
  refine ⟨?_, ?_, ?_, ?_⟩ <;> (repeat' split) <;> rfl

@[simp] theorem applyHttpUrl_indep (lim : Limits) (doc : RemoteConfigDoc) (sc : Settings × Bool)
    (c : Option ℚ) (t0 t1 : Option Nat) :
    applyHttpUrl lim { doc with channel0 := c, ctype0 := t0, ctype1 := t1 } sc
      = applyHttpUrl lim doc sc := rfl

@[simp] theorem applyNtpServer_pres (lim : Limits) (doc : RemoteConfigDoc) (sc : Settings × Bool) :
    (applyNtpServer lim doc sc).1.channel0_start = sc.1.channel0_start ∧
    (applyNtpServer lim doc sc).1.mqtt_on = sc.1.mqtt_on ∧
    (applyNtpServer lim doc sc).1.mqtt_port = sc.1.mqtt_port ∧
    (applyNtpServer lim doc sc).1.config_restart_pending = sc.1.config_restart_pending := by
  unfold applyNtpServer
  refine ⟨?_, ?_, ?_, ?_⟩ <;> (repeat' split) <;> rfl

@[simp] theorem applyNtpServer_indep (lim : Limits) (doc : RemoteConfigDoc) (sc : Settings × Bool)
    (c : Option ℚ) (t0 t1 : Option Nat) :
    applyNtpServer lim { doc with channel0 := c, ctype0 := t0, ctype1 := t1 } sc
      = applyNtpServer lim doc sc := rfl

@[simp] theorem applyWateriusHost_pres (lim : Limits) (doc : RemoteConfigDoc) (sc : Settings × Bool) :
    (applyWateriusHost lim doc sc).1.channel0_start = sc.1.channel0_start ∧
    (applyWateriusHost lim doc sc).1.mqtt_on = sc.1.mqtt_on ∧
    (applyWateriusHost lim doc sc).1.mqtt_port = sc.1.mqtt_port ∧
    (applyWateriusHost lim doc sc).1.config_restart_pending = sc.1.config_restart_pending := by
  unfold applyWateriusHost
  refine ⟨?_, ?_, ?_, ?_⟩ <;> (repeat' split) <;> rfl

@[simp] theorem applyWateriusHost_indep (lim : Limits) (doc : RemoteConfigDoc) (sc : Settings × Bool)
    (c : Option ℚ) (t0 t1 : Option Nat) :
    applyWateriusHost lim { doc with channel0 := c, ctype0 := t0, ctype1 := t1 } sc
      = applyWateriusHost lim doc sc := rfl

@[simp] theorem applyWateriusKey_pres (lim : Limits) (doc : RemoteConfigDoc) (sc : Settings × Bool) :
    (applyWateriusKey lim doc sc).1.channel0_start = sc.1.channel0_start ∧
    (applyWateriusKey lim doc sc).1.mqtt_on = sc.1.mqtt_on ∧
    (applyWateriusKey lim doc sc).1.mqtt_port = sc.1.mqtt_port ∧
    (applyWateriusKey lim doc sc).1.config_restart_pending = sc.1.config_restart_pending := by
  unfold applyWateriusKey
  refine ⟨?_, ?_, ?_, ?_⟩ <;> (repeat' split) <;> rfl

@[simp] theorem applyWateriusKey_indep (lim : Limits) (doc : RemoteConfigDoc) (sc : Settings × Bool)
    (c : Option ℚ) (t0 t1 : Option Nat) :
    applyWateriusKey lim { doc with channel0 := c, ctype0 := t0, ctype1 := t1 } sc
      = applyWateriusKey lim doc sc := rfl

@[simp] theorem applyWateriusEmail_pres (lim : Limits) (doc : RemoteConfigDoc) (sc : Settings × Bool) :
    (applyWateriusEmail lim doc sc).1.channel0_start = sc.1.channel0_start ∧
    (applyWateriusEmail lim doc sc).1.mqtt_on = sc.1.mqtt_on ∧
    (applyWateriusEmail lim doc sc).1.mqtt_port = sc.1.mqtt_port ∧
    (applyWateriusEmail lim doc sc).1.config_restart_pending = sc.1.config_restart_pending := by
  unfold applyWateriusEmail
  refine ⟨?_, ?_, ?_, ?_⟩ <;> (repeat' split) <;> rfl

@[simp] theorem applyWateriusEmail_indep (lim : Limits) (doc : RemoteConfigDoc) (sc : Settings × Bool)
    (c : Option ℚ) (t0 t1 : Option Nat) :
    applyWateriusEmail lim { doc with channel0 := c, ctype0 := t0, ctype1 := t1 } sc
      = applyWateriusEmail lim doc sc := rfl

@[simp] theorem applyWateriusOn_pres (doc : RemoteConfigDoc) (sc : Settings × Bool) :
    (applyWateriusOn doc sc).1.channel0_start = sc.1.channel0_start ∧
    (applyWateriusOn doc sc).1.mqtt_on = sc.1.mqtt_on ∧
    (applyWateriusOn doc sc).1.mqtt_port = sc.1.mqtt_port ∧
    (applyWateriusOn doc sc).1.config_restart_pending = sc.1.config_restart_pending := by
  unfold applyWateriusOn
  refine ⟨?_, ?_, ?_, ?_⟩ <;> (repeat' split) <;> rfl

@[simp] theorem applyWateriusOn_indep (doc : RemoteConfigDoc) (sc : Settings × Bool)
    (c : Option ℚ) (t0 t1 : Option Nat) :
    applyWateriusOn { doc with channel0 := c, ctype0 := t0, ctype1 := t1 } sc
      = applyWateriusOn doc sc := rfl

@[simp] theorem applyCompany_pres (lim : Limits) (doc : RemoteConfigDoc) (sc : Settings × Bool) :
    (applyCompany lim doc sc).1.channel0_start = sc.1.channel0_start ∧
    (applyCompany lim doc sc).1.mqtt_on = sc.1.mqtt_on ∧
    (applyCompany lim doc sc).1.mqtt_port = sc.1.mqtt_port ∧
    (applyCompany lim doc sc).1.config_restart_pending = sc.1.config_restart_pending := by
  unfold applyCompany
  refine ⟨?_, ?_, ?_, ?_⟩ <;> (repeat' split) <;> rfl

@[simp] theorem applyCompany_indep (lim : Limits) (doc : RemoteConfigDoc) (sc : Settings × Bool)
    (c : Option ℚ) (t0 t1 : Option Nat) :
    applyCompany lim { doc with channel0 := c, ctype0 := t0, ctype1 := t1 } sc
      = applyCompany lim doc sc := rfl

@[simp] theorem applyPlace_pres (lim : Limits) (doc : RemoteConfigDoc) (sc : Settings × Bool) :
    (applyPlace lim doc sc).1.channel0_start = sc.1.channel0_start ∧
    (applyPlace lim doc sc).1.mqtt_on = sc.1.mqtt_on ∧
    (applyPlace lim doc sc).1.mqtt_port = sc.1.mqtt_port ∧
    (applyPlace lim doc sc).1.config_restart_pending = sc.1.config_restart_pending := by
  unfold applyPlace
  refine ⟨?_, ?_, ?_, ?_⟩ <;> (repeat' split) <;> rfl

@[simp] theorem applyPlace_indep (lim : Limits) (doc : RemoteConfigDoc) (sc : Settings × Bool)
    (c : Option ℚ) (t0 t1 : Option Nat) :
    applyPlace lim { doc with channel0 := c, ctype0 := t0, ctype1 := t1 } sc
      = applyPlace lim doc sc := rfl

@[simp] theorem applyAutoDiscovery_pres (doc : RemoteConfigDoc) (sc : Settings × Bool) :
    (applyAutoDiscovery doc sc).1.channel0_start = sc.1.channel0_start ∧
    (applyAutoDiscovery doc sc).1.mqtt_on = sc.1.mqtt_on ∧
    (applyAutoDiscovery doc sc).1.mqtt_port = sc.1.mqtt_port ∧
    (applyAutoDiscovery doc sc).1.config_restart_pending = sc.1.config_restart_pending := by
  unfold applyAutoDiscovery
  refine ⟨?_, ?_, ?_, ?_⟩ <;> (repeat' split) <;> rfl

@[simp] theorem applyAutoDiscovery_indep (doc : RemoteConfigDoc) (sc : Settings × Bool)
    (c : Option ℚ) (t0 t1 : Option Nat) :
    applyAutoDiscovery { doc with channel0 := c, ctype0 := t0, ctype1 := t1 } sc
      = applyAutoDiscovery doc sc := rfl

@[simp] theorem applyDiscoveryTopic_pres (lim : Limits) (doc : RemoteConfigDoc) (sc : Settings × Bool) :
    (applyDiscoveryTopic lim doc sc).1.channel0_start = sc.1.channel0_start ∧
    (applyDiscoveryTopic lim doc sc).1.mqtt_on = sc.1.mqtt_on ∧
    (applyDiscoveryTopic lim doc sc).1.mqtt_port = sc.1.mqtt_port ∧
    (applyDiscoveryTopic lim doc sc).1.config_restart_pending = sc.1.config_restart_pending := by
  unfold applyDiscoveryTopic
  refine ⟨?_, ?_, ?_, ?_⟩ <;> (repeat' split) <;> rfl

@[simp] theorem applyDiscoveryTopic_indep (lim : Limits) (doc : RemoteConfigDoc) (sc : Settings × Bool)
    (c : Option ℚ) (t0 t1 : Option Nat) :
    applyDiscoveryTopic lim { doc with channel0 := c, ctype0 := t0, ctype1 := t1 } sc
      = applyDiscoveryTopic lim doc sc := rfl

@[simp] theorem applyDhcpOff_pres (doc : RemoteConfigDoc) (sc : Settings × Bool) :
    (applyDhcpOff doc sc).1.channel0_start = sc.1.channel0_start ∧
    (applyDhcpOff doc sc).1.mqtt_on = sc.1.mqtt_on ∧
    (applyDhcpOff doc sc).1.mqtt_port = sc.1.mqtt_port ∧
    (applyDhcpOff doc sc).1.config_restart_pending = sc.1.config_restart_pending := by
  unfold applyDhcpOff
  refine ⟨?_, ?_, ?_, ?_⟩ <;> (repeat' split) <;> rfl

@[simp] theorem applyDhcpOff_indep (doc : RemoteConfigDoc) (sc : Settings × Bool)
    (c : Option ℚ) (t0 t1 : Option Nat) :
    applyDhcpOff { doc with channel0 := c, ctype0 := t0, ctype1 := t1 } sc
      = applyDhcpOff doc sc := rfl

@[simp] theorem applyStaticIp_pres (doc : RemoteConfigDoc) (sc : Settings × Bool) :
    (applyStaticIp doc sc).1.channel0_start = sc.1.channel0_start ∧
    (applyStaticIp doc sc).1.mqtt_on = sc.1.mqtt_on ∧
    (applyStaticIp doc sc).1.mqtt_port = sc.1.mqtt_port ∧
    (applyStaticIp doc sc).1.config_restart_pending = sc.1.config_restart_pending := by
  unfold applyStaticIp
  refine ⟨?_, ?_, ?_, ?_⟩ <;> (repeat' split) <;> rfl

@[simp] theorem applyStaticIp_indep (doc : RemoteConfigDoc) (sc : Settings × Bool)
    (c : Option ℚ) (t0 t1 : Option Nat) :
    applyStaticIp { doc with channel0 := c, ctype0 := t0, ctype1 := t1 } sc
      = applyStaticIp doc sc := rfl

@[simp] theorem applyGateway_pres (doc : RemoteConfigDoc) (sc : Settings × Bool) :
    (applyGateway doc sc).1.channel0_start = sc.1.channel0_start ∧
    (applyGateway doc sc).1.mqtt_on = sc.1.mqtt_on ∧
    (applyGateway doc sc).1.mqtt_port = sc.1.mqtt_port ∧
    (applyGateway doc sc).1.config_restart_pending = sc.1.config_restart_pending := by
  unfold applyGateway
  refine ⟨?_, ?_, ?_, ?_⟩ <;> (repeat' split) <;> rfl

@[simp] theorem applyGateway_indep (doc : RemoteConfigDoc) (sc : Settings × Bool)
    (c : Option ℚ) (t0 t1 : Option Nat) :
    applyGateway { doc with channel0 := c, ctype0 := t0, ctype1 := t1 } sc
      = applyGateway doc sc := rfl

@[simp] theorem applyMask_pres (doc : RemoteConfigDoc) (sc : Settings × Bool) :
    (applyMask doc sc).1.channel0_start = sc.1.channel0_start ∧
    (applyMask doc sc).1.mqtt_on = sc.1.mqtt_on ∧
    (applyMask doc sc).1.mqtt_port = sc.1.mqtt_port ∧
    (applyMask doc sc).1.config_restart_pending = sc.1.config_restart_pending := by
  unfold applyMask
  refine ⟨?_, ?_, ?_, ?_⟩ <;> (repeat' split) <;> rfl

@[simp] theorem applyMask_indep (doc : RemoteConfigDoc) (sc : Settings × Bool)
    (c : Option ℚ) (t0 t1 : Option Nat) :
    applyMask { doc with channel0 := c, ctype0 := t0, ctype1 := t1 } sc
      = applyMask doc sc := rfl

@[simp] theorem applyMdnsOn_pres (doc : RemoteConfigDoc) (sc : Settings × Bool) :
    (applyMdnsOn doc sc).1.channel0_start = sc.1.channel0_start ∧
    (applyMdnsOn doc sc).1.mqtt_on = sc.1.mqtt_on ∧
    (applyMdnsOn doc sc).1.mqtt_port = sc.1.mqtt_port ∧
    (applyMdnsOn doc sc).1.config_restart_pending = sc.1.config_restart_pending := by
  unfold applyMdnsOn
  refine ⟨?_, ?_, ?_, ?_⟩ <;> (repeat' split) <;> rfl

@[simp] theorem applyMdnsOn_indep (doc : RemoteConfigDoc) (sc : Settings × Bool)
    (c : Option ℚ) (t0 t1 : Option Nat) :
    applyMdnsOn { doc with channel0 := c, ctype0 := t0, ctype1 := t1 } sc
      = applyMdnsOn doc sc := rfl


/-- The counter-type block never writes any settings field. -/
@[simp] theorem applyCtypePair_sett (lim : Limits) (doc : RemoteConfigDoc) (data : AttinyData)
    (i2cOk : Bool) (sc : Settings × Bool) :
    (applyCtypePair lim doc data i2cOk sc).1 = sc.1 := by
  unfold applyCtypePair
  dsimp only
  (repeat' split) <;> rfl

@[simp] theorem applyCtypePair_indep (lim : Limits) (doc : RemoteConfigDoc) (data : AttinyData)
    (i2cOk : Bool) (sc : Settings × Bool) (c : Option ℚ) :
    applyCtypePair lim { doc with channel0 := c } data i2cOk sc
      = applyCtypePair lim doc data i2cOk sc := rfl

@[simp] theorem ctypeCalls_indep (lim : Limits) (doc : RemoteConfigDoc) (data : AttinyData)
    (c : Option ℚ) :
    ctypeCalls lim { doc with channel0 := c } data = ctypeCalls lim doc data := rfl

/-- What the merge engine does to `channel0_start`: the new value exactly
when the field is present and within `[0, 999999]`, the old value
otherwise. -/
theorem applyChannel0_char (doc : RemoteConfigDoc) (sc : Settings × Bool) :
    (applyChannel0 doc sc).1.channel0_start =
      (match doc.channel0 with
       | some v => if 0 ≤ v ∧ v ≤ 999999 then v else sc.1.channel0_start
       | none => sc.1.channel0_start) := by
  unfold applyChannel0
  cases doc.channel0 with
  | none => rfl
  | some v => by_cases h : 0 ≤ v ∧ v ≤ 999999 <;> simp [h]

/-- The `mqtt_on` stage makes the gate for the MQTT sub-fields the
document's value when present, the stored value otherwise. -/
theorem applyMqttOn_char (doc : RemoteConfigDoc) (sc : Settings × Bool) :
    (applyMqttOn doc sc).1.mqtt_on = doc.mqtt_on.getD sc.1.mqtt_on := by
  unfold applyMqttOn
  cases doc.mqtt_on <;> rfl

/-- What the merge engine does to `mqtt_port`: applied only under the
(possibly just-updated) `mqtt_on` gate, and only within `[1, 65535]`. -/
theorem applyMqttPort_char (doc : RemoteConfigDoc) (sc : Settings × Bool) :
    (applyMqttPort doc sc).1.mqtt_port =
      (if sc.1.mqtt_on then
        (match doc.mqtt_port with
         | some v => if 1 ≤ v ∧ v ≤ 65535 then v else sc.1.mqtt_port
         | none => sc.1.mqtt_port)
       else sc.1.mqtt_port) := by
  unfold applyMqttPort
  by_cases hm : sc.1.mqtt_on = true
  · simp only [hm, if_true]
    cases doc.mqtt_port with
    | none => rfl
    | some v => by_cases h : 1 ≤ v ∧ v ≤ 65535 <;> simp [h]
  · simp [hm]

/-- Erasing the `channel0` field from a document. -/
def eraseChannel0 (doc : RemoteConfigDoc) : RemoteConfigDoc := { doc with channel0 := none }

/-- Erasing the counter-type pair from a document. -/
def eraseCtypes (doc : RemoteConfigDoc) : RemoteConfigDoc :=
  { doc with ctype0 := none, ctype1 := none }


/-!
Frame and characterization lemmas for the cycle layer, used by the
reboot-loop-guard claim: nothing in the merge engine, the senders' config
checks, or the end-of-cycle bookkeeping ever changes the persisted
`config_restart_pending` flag except the explicit set sites (each
immediately followed by persist + restart) and the one clear site at the
end of the cycle; and the event lists those layers produce contain no
guard-flag events beyond the explicit reads.
-/

theorem woc_decision_pending (sett : Settings) (data : AttinyData) (manual : Bool)
    (d0 d1 : Nat) :
    (woc_decision sett data manual d0 d1).2.config_restart_pending
      = sett.config_restart_pending := by
  unfold woc_decision
  dsimp only
  (repeat' split) <;> rfl

theorem apply_config_pending (lim : Limits) (sett : Settings) (doc : RemoteConfigDoc)
    (data : AttinyData) (i2cOk : Bool) :
    (apply_config_from_server lim sett doc data i2cOk).sett.config_restart_pending
      = sett.config_restart_pending := by
  simp [apply_config_from_server]

theorem acfr_props (lim : Limits) (body : String) (parsed : Option RemoteConfigDoc)
    (key : String) (sett : Settings) (data : AttinyData) (i2cOk : Bool) (v : Bool) :
    (apply_config_from_response lim body parsed key sett data i2cOk).sett.config_restart_pending
      = sett.config_restart_pending
    ∧ Ev.readFlag v ∉ (apply_config_from_response lim body parsed key sett data i2cOk).evs
    ∧ Ev.setFlag ∉ (apply_config_from_response lim body parsed key sett data i2cOk).evs
    ∧ Ev.clearFlag ∉ (apply_config_from_response lim body parsed key sett data i2cOk).evs
    ∧ Ev.fetchCfg ∉ (apply_config_from_response lim body parsed key sett data i2cOk).evs := by
  unfold apply_config_from_response
  (repeat' split) <;> simp [apply_config_pending, mergeEvents] <;>
    (repeat' split) <;> simp [apply_config_pending, mergeEvents]

theorem faarc_props (lim : Limits) (fetched : Option RemoteConfigDoc)
    (key : String) (sett : Settings) (data : AttinyData) (i2cOk : Bool) (v : Bool) :
    (fetch_and_apply_remote_config lim fetched key sett data i2cOk).sett.config_restart_pending
      = sett.config_restart_pending
    ∧ Ev.readFlag v ∉ (fetch_and_apply_remote_config lim fetched key sett data i2cOk).evs
    ∧ Ev.setFlag ∉ (fetch_and_apply_remote_config lim fetched key sett data i2cOk).evs
    ∧ Ev.clearFlag ∉ (fetch_and_apply_remote_config lim fetched key sett data i2cOk).evs
    ∧ Ev.embeddedCheck ∉ (fetch_and_apply_remote_config lim fetched key sett data i2cOk).evs := by
  unfold fetch_and_apply_remote_config
  (repeat' split) <;> simp [apply_config_pending, mergeEvents] <;>
    (repeat' split) <;> simp [apply_config_pending, mergeEvents]

theorem send_waterius_pt (lim : Limits) (sett : Settings) (data : AttinyData)
    (postOk : Bool) (body : String) (parsed : Option RemoteConfigDoc) (i2cOk : Bool)
    (h : sett.config_restart_pending = true) :
    (send_waterius lim sett data postOk body parsed i2cOk).sett = sett
    ∧ (send_waterius lim sett data postOk body parsed i2cOk).restarted = false
    ∧ ((send_waterius lim sett data postOk body parsed i2cOk).evs = []
       ∨ (send_waterius lim sett data postOk body parsed i2cOk).evs = [Ev.readFlag true]) := by
  unfold send_waterius
  (repeat' split) <;> simp_all

theorem send_http_pt (lim : Limits) (sett : Settings) (data : AttinyData)
    (postOk : Bool) (body : String) (parsed : Option RemoteConfigDoc) (i2cOk : Bool)
    (h : sett.config_restart_pending = true) :
    (send_http lim sett data postOk body parsed i2cOk).sett = sett
    ∧ (send_http lim sett data postOk body parsed i2cOk).restarted = false
    ∧ ((send_http lim sett data postOk body parsed i2cOk).evs = []
       ∨ (send_http lim sett data postOk body parsed i2cOk).evs = [Ev.readFlag true]) := by
  unfold send_http
  (repeat' split) <;> simp_all

theorem send_waterius_pf (lim : Limits) (sett : Settings) (data : AttinyData)
    (postOk : Bool) (body : String) (parsed : Option RemoteConfigDoc) (i2cOk : Bool)
    (h : sett.config_restart_pending = false) :
    Ev.readFlag true ∉ (send_waterius lim sett data postOk body parsed i2cOk).evs
    ∧ Ev.clearFlag ∉ (send_waterius lim sett data postOk body parsed i2cOk).evs
    ∧ Ev.fetchCfg ∉ (send_waterius lim sett data postOk body parsed i2cOk).evs
    ∧ ((send_waterius lim sett data postOk body parsed i2cOk).restarted = false →
        (send_waterius lim sett data postOk body parsed i2cOk).sett.config_restart_pending = false
        ∧ Ev.setFlag ∉ (send_waterius lim sett data postOk body parsed i2cOk).evs) := by
  obtain ⟨ha1, ha2, ha3, ha4⟩ := acfr_props lim body parsed sett.waterius_key sett data i2cOk true
  unfold send_waterius
  (repeat' split) <;> simp_all <;> (repeat' split) <;> simp_all

theorem send_http_pf (lim : Limits) (sett : Settings) (data : AttinyData)
    (postOk : Bool) (body : String) (parsed : Option RemoteConfigDoc) (i2cOk : Bool)
    (h : sett.config_restart_pending = false) :
    Ev.readFlag true ∉ (send_http lim sett data postOk body parsed i2cOk).evs
    ∧ Ev.clearFlag ∉ (send_http lim sett data postOk body parsed i2cOk).evs
    ∧ Ev.fetchCfg ∉ (send_http lim sett data postOk body parsed i2cOk).evs
    ∧ ((send_http lim sett data postOk body parsed i2cOk).restarted = false →
        (send_http lim sett data postOk body parsed i2cOk).sett.config_restart_pending = false
        ∧ Ev.setFlag ∉ (send_http lim sett data postOk body parsed i2cOk).evs) := by
  obtain ⟨ha1, ha2, ha3, ha4⟩ := acfr_props lim body parsed sett.waterius_key sett data i2cOk true
  unfold send_http
  (repeat' split) <;> simp_all <;> (repeat' split) <;> simp_all

theorem finishCycle_pt (sett : Settings) (tr : List Ev)
    (h : sett.config_restart_pending = true) :
    finishCycle sett tr = ⟨{ sett with config_restart_pending := false },
      tr ++ [Ev.readFlag true, Ev.clearFlag, Ev.persist], false⟩ := by
  simp [finishCycle, h]

theorem finishCycle_pf (sett : Settings) (tr : List Ev)
    (h : sett.config_restart_pending = false) :
    finishCycle sett tr = ⟨sett, tr ++ [Ev.readFlag false, Ev.persist], false⟩ := by
  simp [finishCycle, h]

theorem update_config_pending (s : Settings) (data : AttinyData) :
    (update_config s data).config_restart_pending = s.config_restart_pending := rfl

theorem wocReset_pending (s : Settings) :
    (if s.wake_on_consumption_only && decide (0 < s.wakeups_without_send) then
      { s with wakeups_without_send := 0 } else s).config_restart_pending
      = s.config_restart_pending := by
  split <;> rfl

theorem afterCfg_pt (sett : Settings) (data : AttinyData) (tr : List Ev)
    (h : sett.config_restart_pending = true) :
    (afterCfg sett data tr).trace = tr ++ [Ev.readFlag true, Ev.clearFlag, Ev.persist]
    ∧ (afterCfg sett data tr).sett.config_restart_pending = false
    ∧ (afterCfg sett data tr).restarted = false := by
  unfold afterCfg
  dsimp only
  rw [finishCycle_pt _ _ (by rw [wocReset_pending, update_config_pending]; exact h)]
  exact ⟨rfl, rfl, rfl⟩

theorem afterCfg_pf (sett : Settings) (data : AttinyData) (tr : List Ev)
    (h : sett.config_restart_pending = false) :
    (afterCfg sett data tr).trace = tr ++ [Ev.readFlag false, Ev.persist]
    ∧ (afterCfg sett data tr).sett.config_restart_pending = false
    ∧ (afterCfg sett data tr).restarted = false := by
  unfold afterCfg
  dsimp only
  rw [finishCycle_pf _ _ (by rw [wocReset_pending, update_config_pending]; exact h)]
  refine ⟨rfl, ?_, rfl⟩
  show (if _ then _ else _ : Settings).config_restart_pending = false
  rw [wocReset_pending, update_config_pending]
  exact h

theorem cfgStage_pt (lim : Limits) (manual : Bool) (sett2 : Settings) (data : AttinyData)
    (o : CycleOracle) (tr1 : List Ev) (h : sett2.config_restart_pending = true) :
    cfgStage lim manual sett2 data o tr1 = afterCfg sett2 data tr1 := by
  unfold cfgStage
  simp [h]

theorem cfgStage_pf (lim : Limits) (manual : Bool) (sett2 : Settings) (data : AttinyData)
    (o : CycleOracle) (tr1 : List Ev) (h : sett2.config_restart_pending = false)
    (htr : Ev.readFlag true ∉ tr1) :
    Ev.readFlag true ∉ (cfgStage lim manual sett2 data o tr1).trace := by
  obtain ⟨hf1, hf2, hf3, hf4, hf5⟩ :=
    faarc_props lim o.cfgFetched sett2.waterius_key sett2 data o.i2cOk true
  obtain ⟨ga1, ga2, ga3⟩ := afterCfg_pf sett2 data tr1 h
  obtain ⟨gb1, gb2, gb3⟩ := afterCfg_pf
    (fetch_and_apply_remote_config lim o.cfgFetched sett2.waterius_key sett2 data o.i2cOk).sett
    data (tr1 ++ (Ev.fetchCfg ::
      (fetch_and_apply_remote_config lim o.cfgFetched sett2.waterius_key sett2 data o.i2cOk).evs))
    (by rw [hf1]; exact h)
  unfold cfgStage
  dsimp only
  (repeat' split) <;> simp_all


theorem loop_pt (lim : Limits) (manual : Bool) (sett0 : Settings) (data : AttinyData)
    (o : CycleOracle) (h : sett0.config_restart_pending = true) :
    ∃ mid : List Ev,
      Ev.fetchCfg ∉ mid ∧ Ev.embeddedCheck ∉ mid ∧ Ev.clearFlag ∉ mid ∧ Ev.setFlag ∉ mid
      ∧ (loop lim true manual sett0 data o).trace
          = Ev.readFlag true :: mid ++ [Ev.readFlag true, Ev.clearFlag, Ev.persist]
      ∧ (loop lim true manual sett0 data o).sett.config_restart_pending = false
      ∧ (loop lim true manual sett0 data o).restarted = false := by
  have hw : (woc_decision sett0 data manual (data.impulses0 - sett0.impulses0_previous)
      (data.impulses1 - sett0.impulses1_previous)).2.config_restart_pending = true := by
    rw [woc_decision_pending]; exact h
  unfold loop
  rw [if_neg (by simp)]
  dsimp only
  rw [h]
  split
  · refine ⟨[], by simp, by simp, by simp, by simp, ?_, ?_, ?_⟩ <;>
      simp [finishCycle_pt _ _ hw]
  · obtain ⟨hs1, hs2, hs3⟩ := send_waterius_pt lim _ data o.wtrPostOk o.wtrBody o.wtrParsed o.i2cOk hw
    rw [if_neg (by rw [hs2]; simp)]
    rw [hs1]
    obtain ⟨ht1, ht2, ht3⟩ := send_http_pt lim _ data o.httpPostOk o.httpBody o.httpParsed o.i2cOk hw
    rw [if_neg (by rw [ht2]; simp)]
    rw [ht1, hw]
    rw [cfgStage_pt lim manual _ data o _ hw]
    obtain ⟨ha1, ha2, ha3⟩ := afterCfg_pt _ data
      ([Ev.readFlag true] ++ (send_waterius lim (woc_decision sett0 data manual
          (data.impulses0 - sett0.impulses0_previous)
          (data.impulses1 - sett0.impulses1_previous)).2 data o.wtrPostOk o.wtrBody o.wtrParsed o.i2cOk).evs
        ++ (send_http lim (woc_decision sett0 data manual
          (data.impulses0 - sett0.impulses0_previous)
          (data.impulses1 - sett0.impulses1_previous)).2 data o.httpPostOk o.httpBody o.httpParsed o.i2cOk).evs
        ++ [Ev.readFlag true]) hw
    refine ⟨(send_waterius lim (woc_decision sett0 data manual
          (data.impulses0 - sett0.impulses0_previous)
          (data.impulses1 - sett0.impulses1_previous)).2 data o.wtrPostOk o.wtrBody o.wtrParsed o.i2cOk).evs
        ++ (send_http lim (woc_decision sett0 data manual
          (data.impulses0 - sett0.impulses0_previous)
          (data.impulses1 - sett0.impulses1_previous)).2 data o.httpPostOk o.httpBody o.httpParsed o.i2cOk).evs
        ++ [Ev.readFlag true], ?_, ?_, ?_, ?_, ?_, ?_, ?_⟩ <;>
      rcases hs3 with hs | hs <;> rcases ht3 with ht | ht <;>
        simp_all

theorem loop_pf (lim : Limits) (manual : Bool) (sett0 : Settings) (data : AttinyData)
    (o : CycleOracle) (h : sett0.config_restart_pending = false) :
    Ev.readFlag true ∉ (loop lim true manual sett0 data o).trace := by
  have hw : (woc_decision sett0 data manual (data.impulses0 - sett0.impulses0_previous)
      (data.impulses1 - sett0.impulses1_previous)).2.config_restart_pending = false := by
    rw [woc_decision_pending]; exact h
  unfold loop
  rw [if_neg (by simp)]
  dsimp only
  rw [h]
  split
  · rw [finishCycle_pf _ _ hw]
    simp
  · obtain ⟨hs1, hs2, hs3, hs4⟩ :=
      send_waterius_pf lim _ data o.wtrPostOk o.wtrBody o.wtrParsed o.i2cOk hw
    split
    · simp_all
    · rename_i hres
      obtain ⟨hp1, hp2⟩ := hs4 (by simpa using hres)
      obtain ⟨ht1, ht2, ht3, ht4⟩ :=
        send_http_pf lim _ data o.httpPostOk o.httpBody o.httpParsed o.i2cOk hp1
      split
      · simp_all
      · rename_i hres2
        obtain ⟨hq1, hq2⟩ := ht4 (by simpa using hres2)
        rw [hq1]
        have := cfgStage_pf lim manual
          (send_http lim (send_waterius lim (woc_decision sett0 data manual
              (data.impulses0 - sett0.impulses0_previous)
              (data.impulses1 - sett0.impulses1_previous)).2 data o.wtrPostOk o.wtrBody o.wtrParsed o.i2cOk).sett
            data o.httpPostOk o.httpBody o.httpParsed o.i2cOk).sett data o
          ([Ev.readFlag false]
            ++ (send_waterius lim (woc_decision sett0 data manual
              (data.impulses0 - sett0.impulses0_previous)
              (data.impulses1 - sett0.impulses1_previous)).2 data o.wtrPostOk o.wtrBody o.wtrParsed o.i2cOk).evs
            ++ (send_http lim (send_waterius lim (woc_decision sett0 data manual
              (data.impulses0 - sett0.impulses0_previous)
              (data.impulses1 - sett0.impulses1_previous)).2 data o.wtrPostOk o.wtrBody o.wtrParsed o.i2cOk).sett
                data o.httpPostOk o.httpBody o.httpParsed o.i2cOk).evs
            ++ [Ev.readFlag false]) hq1 (by simp_all)
        simp_all

theorem loop_no_set_read (lim : Limits) (cl m : Bool) (s : Settings) (d : AttinyData)
    (o : CycleOracle) :
    ¬(Ev.setFlag ∈ (loop lim cl m s d o).trace
      ∧ Ev.readFlag true ∈ (loop lim cl m s d o).trace) := by
  cases cl
  · simp [loop]
  · by_cases hp : s.config_restart_pending = true
    · rintro ⟨hset, -⟩
      obtain ⟨mid, h1, h2, h3, h4, h5, h6, h7⟩ := loop_pt lim m s d o hp
      rw [h5] at hset
      rcases List.mem_cons.mp hset with hc | hc
      · exact absurd hc (by simp)
      · rcases List.mem_append.mp hc with hc2 | hc2
        · exact h4 hc2
        · simp at hc2
    · rintro ⟨-, hread⟩
      exact loop_pf lim m s d o (by simpa using hp) hread



/-- C2: the bounded response validator accepts exactly when the status is
200, the declared Content-Length is strictly positive, and that length is
at most `REMOTE_CONFIG_MAX_SIZE`; the three checks fire in that order (the
recorded rejection reason is the first failing check), and the body is
read if and only if all three checks pass. -/
theorem C2_response_validator (response_code content_length : Int)
    (maxSize : Nat) (body : String) :
    ((validate_and_get_response response_code content_length maxSize body).ok = true ↔
       (response_code = 200 ∧ 0 < content_length ∧ content_length ≤ (maxSize : Int)))
    ∧ (validate_and_get_response response_code content_length maxSize body).bodyRead
        = (validate_and_get_response response_code content_length maxSize body).ok
    ∧ (response_code ≠ 200 →
        (validate_and_get_response response_code content_length maxSize body).reason
          = some .statusNot200)
    ∧ (response_code = 200 → content_length ≤ 0 →
        (validate_and_get_response response_code content_length maxSize body).reason
          = some .noContentLength)
    ∧ (response_code = 200 → 0 < content_length → (maxSize : Int) < content_length →
        (validate_and_get_response response_code content_length maxSize body).reason
          = some .tooLarge) := by
  unfold validate_and_get_response
  by_cases h1 : response_code = 200 <;>
    by_cases h2 : content_length ≤ 0 <;>
      by_cases h3 : (maxSize : Int) < content_length <;>
        simp [h1, h2, h3] <;> omega

/-- C2 witness: a concrete accepted response (status 200, declared size 5,
ceiling 100). -/
theorem C2_response_validator_witness :
    ((validate_and_get_response 200 5 100 "hello").ok = true ↔
       ((200 : Int) = 200 ∧ (0 : Int) < 5 ∧ (5 : Int) ≤ ((100 : Nat) : Int)))
    ∧ (validate_and_get_response 200 5 100 "hello").bodyRead
        = (validate_and_get_response 200 5 100 "hello").ok
    ∧ ((200 : Int) ≠ 200 → (validate_and_get_response 200 5 100 "hello").reason
          = some .statusNot200)
    ∧ ((200 : Int) = 200 → (5 : Int) ≤ 0 → (validate_and_get_response 200 5 100 "hello").reason
          = some .noContentLength)
    ∧ ((200 : Int) = 200 → (0 : Int) < 5 → ((100 : Nat) : Int) < 5 →
        (validate_and_get_response 200 5 100 "hello").reason = some .tooLarge) :=
  C2_response_validator 200 5 100 "hello"

/-- C10: on every rejection path the validator writes the empty string
into the output parameter (so a caller reusing a buffer never sees a stale
body), and it returns `true` exactly when the output holds the freshly
read body: the output is the body when accepted and `""` when rejected,
and the body read happened exactly on acceptance. -/
theorem C10_rejection_clears_output (response_code content_length : Int)
    (maxSize : Nat) (body : String) :
    (validate_and_get_response response_code content_length maxSize body).out
      = (if (validate_and_get_response response_code content_length maxSize body).ok
         then body else "")
    ∧ (validate_and_get_response response_code content_length maxSize body).bodyRead
      = (validate_and_get_response response_code content_length maxSize body).ok := by
  unfold validate_and_get_response
  by_cases h1 : response_code = 200 <;>
    by_cases h2 : content_length ≤ 0 <;>
      by_cases h3 : (maxSize : Int) < content_length <;>
        simp [h1, h2, h3]


/-!
The claim theorems.  `testLimits` is a concrete instantiation of the
header-defined constants used by the witnesses and counterexamples; the
claims themselves are proved for every `Limits` value.
-/

/-- A concrete `Limits` instantiation for witnesses: the exact header
values are immaterial to every claim, only distinctness of the three
counter-type codes and positivity of the bounds are ever used. -/
def testLimits : Limits :=
  { SERIAL_LEN := 16, COUNTER_NAME_MAX := 10, WIFI_SSID_LEN := 32, WIFI_PWD_LEN := 64,
    HOST_LEN := 64, MQTT_LOGIN_LEN := 32, MQTT_PASSWORD_LEN := 32, MQTT_TOPIC_LEN := 64,
    WATERIUS_KEY_LEN := 34, EMAIL_LEN := 32, COMPANY_LEN := 32, PLACE_LEN := 32,
    NAMUR := 0, ELECTRONIC := 1, NONE_T := 2, REMOTE_CONFIG_MAX_SIZE := 4096 }

/-- C1: key authentication succeeds if and only if the parsed document
carries an authentication field whose value equals the expected device
key exactly; when the field is absent or unequal, both the pull-fetch
path (`fetch_and_apply_remote_config`) and the response-embedded path
(`apply_config_from_response`) return failure with the settings unchanged
and an empty event list — in particular the merge engine is never
invoked and no peripheral call is made. -/
theorem C1_key_authentication (lim : Limits) (doc : RemoteConfigDoc) (key : String)
    (sett : Settings) (data : AttinyData) (i2cOk : Bool) (body : String)
    (h : doc.key ≠ some key) :
    (∀ d : RemoteConfigDoc, validate_device_key d key = decide (d.key = some key))
    ∧ fetch_and_apply_remote_config lim (some doc) key sett data i2cOk
        = { ok := false, sett := sett, evs := [] }
    ∧ apply_config_from_response lim body (some doc) key sett data i2cOk
        = { ok := false, sett := sett, evs := [] } := by
  have hval : validate_device_key doc key = false := by
    unfold validate_device_key
    cases hk : doc.key with
    | none => rfl
    | some s =>
      have : s ≠ key := by intro hs; exact h (hk.trans (by rw [hs]))
      simp [this]
  refine ⟨?_, ?_, ?_⟩
  · intro d
    unfold validate_device_key
    cases hk : d.key with
    | none => simp
    | some s => by_cases hs : s = key <;> simp [hs]
  · unfold fetch_and_apply_remote_config
    simp [hval]
  · unfold apply_config_from_response
    simp [hval]

/-- C1 witness: a concrete document whose key field mismatches the
expected key "k"; both paths reject it without touching the settings. -/
theorem C1_key_authentication_witness :
    (({ key := some "wrong", factor0 := some 5 } : RemoteConfigDoc).key ≠ some "k")
    ∧ ((∀ d : RemoteConfigDoc, validate_device_key d "k" = decide (d.key = some "k"))
       ∧ fetch_and_apply_remote_config testLimits
           (some { key := some "wrong", factor0 := some 5 }) "k" {} ⟨0, 0, 0, 0⟩ true
           = { ok := false, sett := {}, evs := [] }
       ∧ apply_config_from_response testLimits "0123456789"
           (some { key := some "wrong", factor0 := some 5 }) "k" {} ⟨0, 0, 0, 0⟩ true
           = { ok := false, sett := {}, evs := [] }) :=
  ⟨by decide,
   C1_key_authentication testLimits { key := some "wrong", factor0 := some 5 } "k"
     {} ⟨0, 0, 0, 0⟩ true "0123456789" (by decide)⟩

/-- C3: whenever the persisted reboot-loop guard flag is set at the start
of a wake cycle, that cycle performs no pull-style `/cfg` fetch and no
response-embedded configuration check; the flag is cleared exactly once,
and the clear immediately precedes the cycle-end persistence of the
settings; the resulting cycle ends with the flag off and without a
restart (so the next cycle is Normal); and in every cycle whatsoever, no
execution both sets the flag and reads it as true. -/
theorem C3_reboot_loop_guard (lim : Limits) (sett0 : Settings) (data : AttinyData)
    (o : CycleOracle) (manual : Bool) (h : sett0.config_restart_pending = true) :
    Ev.fetchCfg ∉ (loop lim true manual sett0 data o).trace
    ∧ Ev.embeddedCheck ∉ (loop lim true manual sett0 data o).trace
    ∧ ((loop lim true manual sett0 data o).trace).count Ev.clearFlag = 1
    ∧ (∃ pre, (loop lim true manual sett0 data o).trace = pre ++ [Ev.clearFlag, Ev.persist])
    ∧ (loop lim true manual sett0 data o).sett.config_restart_pending = false
    ∧ (loop lim true manual sett0 data o).restarted = false
    ∧ (∀ (cl1 m1 : Bool) (s1 : Settings) (d1 : AttinyData) (o1 : CycleOracle),
        ¬(Ev.setFlag ∈ (loop lim cl1 m1 s1 d1 o1).trace
          ∧ Ev.readFlag true ∈ (loop lim cl1 m1 s1 d1 o1).trace)) := by
  obtain ⟨mid, h1, h2, h3, h4, h5, h6, h7⟩ := loop_pt lim manual sett0 data o h
  refine ⟨?_, ?_, ?_, ⟨Ev.readFlag true :: (mid ++ [Ev.readFlag true]), ?_⟩, h6, h7,
    fun cl1 m1 s1 d1 o1 => loop_no_set_read lim cl1 m1 s1 d1 o1⟩
  · rw [h5]; simp [h1]
  · rw [h5]; simp [h2]
  · rw [h5]
    simp [List.count_cons, List.count_append, List.count_eq_zero.mpr h3]
  · rw [h5]; simp

/-- C3 witness: a concrete cycle waking with the guard flag set (manual
wake, WiFi up, both senders succeeding with config-free responses). -/
theorem C3_reboot_loop_guard_witness :
    (({ config_restart_pending := true, waterius_on := true, waterius_host := "h" }
        : Settings).config_restart_pending = true)
    ∧ (Ev.fetchCfg ∉ (loop testLimits true true
        { config_restart_pending := true, waterius_on := true, waterius_host := "h" }
        ⟨0, 0, 0, 0⟩ ⟨true, true, "", none, false, "", none, none, false⟩).trace
      ∧ Ev.embeddedCheck ∉ (loop testLimits true true
        { config_restart_pending := true, waterius_on := true, waterius_host := "h" }
        ⟨0, 0, 0, 0⟩ ⟨true, true, "", none, false, "", none, none, false⟩).trace
      ∧ ((loop testLimits true true
        { config_restart_pending := true, waterius_on := true, waterius_host := "h" }
        ⟨0, 0, 0, 0⟩ ⟨true, true, "", none, false, "", none, none, false⟩).trace).count Ev.clearFlag = 1
      ∧ (∃ pre, (loop testLimits true true
        { config_restart_pending := true, waterius_on := true, waterius_host := "h" }
        ⟨0, 0, 0, 0⟩ ⟨true, true, "", none, false, "", none, none, false⟩).trace
          = pre ++ [Ev.clearFlag, Ev.persist])
      ∧ (loop testLimits true true
        { config_restart_pending := true, waterius_on := true, waterius_host := "h" }
        ⟨0, 0, 0, 0⟩ ⟨true, true, "", none, false, "", none, none, false⟩).sett.config_restart_pending = false
      ∧ (loop testLimits true true
        { config_restart_pending := true, waterius_on := true, waterius_host := "h" }
        ⟨0, 0, 0, 0⟩ ⟨true, true, "", none, false, "", none, none, false⟩).restarted = false
      ∧ (∀ (cl1 m1 : Bool) (s1 : Settings) (d1 : AttinyData) (o1 : CycleOracle),
          ¬(Ev.setFlag ∈ (loop testLimits cl1 m1 s1 d1 o1).trace
            ∧ Ev.readFlag true ∈ (loop testLimits cl1 m1 s1 d1 o1).trace))) :=
  ⟨by decide,
   C3_reboot_loop_guard testLimits
     { config_restart_pending := true, waterius_on := true, waterius_host := "h" }
     ⟨0, 0, 0, 0⟩ ⟨true, true, "", none, false, "", none, none, false⟩ true (by decide)⟩

/-- C4: when an authenticated document supplies `ctype0` and/or `ctype1`
and both resulting target values (absent members taken from the
peripheral snapshot) belong to the permitted enumeration, the merge
engine submits the pair to the peripheral in exactly one
`setCountersType` call carrying both values; if that call fails, the
counter-type block contributes nothing to `changed` and every other field
of the same document applies exactly as if the counter-type fields had
been absent. -/
theorem C4_ctype_pair_atomic (lim : Limits) (sett : Settings) (doc : RemoteConfigDoc)
    (data : AttinyData) (i2cOk : Bool)
    (hp : doc.ctype0.isSome || doc.ctype1.isSome)
    (hv0 : isValidCtype lim (doc.ctype0.getD data.counter_type0) = true)
    (hv1 : isValidCtype lim (doc.ctype1.getD data.counter_type1) = true) :
    (apply_config_from_server lim sett doc data i2cOk).calls
      = [(doc.ctype0.getD data.counter_type0, doc.ctype1.getD data.counter_type1)]
    ∧ (i2cOk = false →
        (apply_config_from_server lim sett doc data i2cOk).sett
          = (apply_config_from_server lim sett (eraseCtypes doc) data i2cOk).sett
        ∧ (apply_config_from_server lim sett doc data i2cOk).changed
          = (apply_config_from_server lim sett (eraseCtypes doc) data i2cOk).changed) := by
  constructor
  · show ctypeCalls lim doc data = _
    unfold ctypeCalls
    simp [hp, hv0, hv1]
  · intro hok
    subst hok
    have hct : ∀ sc, applyCtypePair lim doc data false sc = sc := by
      intro sc; simp [applyCtypePair]
    have hct2 : ∀ sc,
        applyCtypePair lim { doc with ctype0 := none, ctype1 := none } data false sc = sc := by
      intro sc; simp [applyCtypePair]
    constructor <;> simp [apply_config_from_server, eraseCtypes, hct, hct2]

/-- C4 witness: a document carrying the valid pair (NAMUR, ELECTRONIC)
under `testLimits`, with the peripheral refusing the call. -/
theorem C4_ctype_pair_atomic_witness :
    ((({ ctype0 := some 0, ctype1 := some 1 } : RemoteConfigDoc).ctype0.isSome
        || ({ ctype0 := some 0, ctype1 := some 1 } : RemoteConfigDoc).ctype1.isSome) = true)
    ∧ isValidCtype testLimits
        (({ ctype0 := some 0, ctype1 := some 1 } : RemoteConfigDoc).ctype0.getD 2) = true
    ∧ isValidCtype testLimits
        (({ ctype0 := some 0, ctype1 := some 1 } : RemoteConfigDoc).ctype1.getD 2) = true
    ∧ ((apply_config_from_server testLimits {} { ctype0 := some 0, ctype1 := some 1 }
          ⟨0, 0, 2, 2⟩ false).calls
        = [(({ ctype0 := some 0, ctype1 := some 1 } : RemoteConfigDoc).ctype0.getD 2,
            ({ ctype0 := some 0, ctype1 := some 1 } : RemoteConfigDoc).ctype1.getD 2)]
      ∧ (false = false →
          (apply_config_from_server testLimits {} { ctype0 := some 0, ctype1 := some 1 }
            ⟨0, 0, 2, 2⟩ false).sett
            = (apply_config_from_server testLimits {}
                (eraseCtypes { ctype0 := some 0, ctype1 := some 1 }) ⟨0, 0, 2, 2⟩ false).sett
          ∧ (apply_config_from_server testLimits {} { ctype0 := some 0, ctype1 := some 1 }
              ⟨0, 0, 2, 2⟩ false).changed
            = (apply_config_from_server testLimits {}
                (eraseCtypes { ctype0 := some 0, ctype1 := some 1 }) ⟨0, 0, 2, 2⟩ false).changed)) :=
  ⟨by decide, by decide, by decide,
   C4_ctype_pair_atomic testLimits {} { ctype0 := some 0, ctype1 := some 1 }
     ⟨0, 0, 2, 2⟩ false (by decide) (by decide) (by decide)⟩



/-- C5 counterexample: the claim says the settings-merge engine fills an
absent member of the counter-type pair from the session counter context,
never from the raw peripheral snapshot.  Concretely: the snapshot reports
counter types (0, 1); a push-update sets counter 1 to type 0, so the
session context's intended value for counter 1 is 0; a document supplying
only `ctype0 := 0` then makes the merge engine call the peripheral with
pair (0, 1) — the stale snapshot value 1, not the context's intended
value 0. -/
theorem C5_counter_context_counterexample :
    (update_settings "waterius/ctype1/set" "0" {} ⟨0, 0, 0, 1⟩ {} ({} : JsonEcho) true).ctx.ctype1 = 0
    ∧ (update_settings "waterius/ctype1/set" "0" {} ⟨0, 0, 0, 1⟩ {} ({} : JsonEcho) true).calls
        = [(0, 0)]
    ∧ ctypeCalls testLimits { ctype0 := some 0 } ⟨0, 0, 0, 1⟩ = [(0, 1)]
    ∧ ((1 : Nat) ≠ 0) := by decide

/-- C5 amended: the two update paths disagree on where the absent member
of the counter-type pair comes from.  The push-update path
(`update_settings`) takes the other member from the session counter
context, but the full-document merge engine (`apply_config_from_server`,
whose peripheral calls are `ctypeCalls`) takes it from the raw
peripheral snapshot `data.counter_typeX`. -/
theorem C5_counter_pair_sources (lim : Limits) (topic payload : String) (sett : Settings)
    (data : AttinyData) (ctx0 : MqttCounterContext) (json : JsonEcho) (i2cOk : Bool)
    (doc : RemoteConfigDoc) (a : Nat)
    (hset : strEndsWith topic "/set" = true)
    (hparam : extractParam topic = "ctype0")
    (hne : (ctx0.init data).ctype0 ≠ strToInt payload)
    (hd0 : doc.ctype0 = some a) (hd1 : doc.ctype1 = none) :
    (update_settings topic payload sett data ctx0 json i2cOk).calls
        = [(strToInt payload, (ctx0.init data).ctype1)]
    ∧ ctypeCalls lim doc data =
        (if isValidCtype lim a && isValidCtype lim data.counter_type1 then
          [(a, data.counter_type1)] else []) := by
  constructor
  · unfold update_settings
    simp only [hset, hparam, if_true]
    simp only [show (("ctype0" : String) = "period_min") = False by simp,
      show (("ctype0" : String) = "f0") = False by simp,
      show (("ctype0" : String) = "f1") = False by simp,
      show (("ctype0" : String) = "ch0") = False by simp,
      show (("ctype0" : String) = "ch1") = False by simp,
      show (("ctype0" : String) = "cname0") = False by simp,
      show (("ctype0" : String) = "cname1") = False by simp,
      show (("ctype0" : String) = "ctype0") = True by simp,
      if_false, if_true]
    rw [if_pos hne]
    cases i2cOk <;> simp
  · unfold ctypeCalls
    simp [hd0, hd1]

/-- C5 witness: a push-update of ctype0 to 2 with context (0, 1), and a
document supplying only ctype0 = 0 against snapshot types (0, 1). -/
theorem C5_counter_pair_sources_witness :
    strEndsWith "waterius/ctype0/set" "/set" = true
    ∧ extractParam "waterius/ctype0/set" = "ctype0"
    ∧ (MqttCounterContext.init {} ⟨0, 0, 0, 1⟩).ctype0 ≠ strToInt "2"
    ∧ (({ ctype0 := some 0 } : RemoteConfigDoc).ctype0 = some 0)
    ∧ (({ ctype0 := some 0 } : RemoteConfigDoc).ctype1 = none)
    ∧ ((update_settings "waterius/ctype0/set" "2" {} ⟨0, 0, 0, 1⟩ {} ({} : JsonEcho) true).calls
        = [(strToInt "2", (MqttCounterContext.init {} ⟨0, 0, 0, 1⟩).ctype1)]
      ∧ ctypeCalls testLimits { ctype0 := some 0 } ⟨0, 0, 0, 1⟩ =
          (if isValidCtype testLimits 0 && isValidCtype testLimits 1 then
            [(0, 1)] else [])) :=
  ⟨by decide, by decide, by decide, by decide, by decide,
   C5_counter_pair_sources testLimits "waterius/ctype0/set" "2" {} ⟨0, 0, 0, 1⟩ {}
     ({} : JsonEcho) true { ctype0 := some 0 } 0
     (by decide) (by decide) (by decide) (by decide) (by decide)⟩

/-- C6: a recognized bounded field is applied exactly when present and
within its declared inclusive bounds, with its gate (if any) holding —
shown here by full characterizations of `channel0_start` (bounds
`[0, 999999]`, no gate) and `mqtt_port` (bounds `[1, 65535]`, gated by
the effective `mqtt_on`) — and an out-of-bounds field is skipped without
affecting anything else: a document whose `channel0` violates the bounds
produces exactly the result of the same document with `channel0` absent,
so every other valid field still applies and `channel0_start` is left
unchanged. -/
theorem C6_field_validation_independence (lim : Limits) (sett : Settings)
    (doc : RemoteConfigDoc) (data : AttinyData) (i2cOk : Bool) (v : ℚ)
    (h1 : doc.channel0 = some v) (h2 : ¬(0 ≤ v ∧ v ≤ 999999)) :
    (∀ d : RemoteConfigDoc,
      (apply_config_from_server lim sett d data i2cOk).sett.channel0_start =
        (match d.channel0 with
         | some w => if 0 ≤ w ∧ w ≤ 999999 then w else sett.channel0_start
         | none => sett.channel0_start))
    ∧ (∀ d : RemoteConfigDoc,
      (apply_config_from_server lim sett d data i2cOk).sett.mqtt_port =
        (if d.mqtt_on.getD sett.mqtt_on then
          (match d.mqtt_port with
           | some p => if 1 ≤ p ∧ p ≤ 65535 then p else sett.mqtt_port
           | none => sett.mqtt_port)
         else sett.mqtt_port))
    ∧ apply_config_from_server lim sett doc data i2cOk
        = apply_config_from_server lim sett (eraseChannel0 doc) data i2cOk := by
  refine ⟨?_, ?_, ?_⟩
  · intro d
    simp only [apply_config_from_server]
    simp
    rw [applyChannel0_char]
  · intro d
    simp only [apply_config_from_server]
    simp
    rw [applyMqttPort_char]
    simp
    rw [applyMqttOn_char]
    simp
  · have hch : ∀ sc, applyChannel0 doc sc = sc := by
      intro sc; simp [applyChannel0, h1, h2]
    have hch2 : ∀ sc, applyChannel0 { doc with channel0 := none } sc = sc := by
      intro sc; simp [applyChannel0]
    simp [apply_config_from_server, eraseChannel0, hch, hch2, ApplyResult.mk.injEq]

/-- C6 witness: the claim's own instance — a document with
channel0 = 1000000 (outside [0, 999999]) alongside a valid factor0. -/
theorem C6_field_validation_independence_witness :
    (({ channel0 := some 1000000, factor0 := some 77 } : RemoteConfigDoc).channel0
        = some 1000000)
    ∧ ¬((0 : ℚ) ≤ 1000000 ∧ (1000000 : ℚ) ≤ 999999)
    ∧ ((∀ d : RemoteConfigDoc,
        (apply_config_from_server testLimits {} d ⟨0, 0, 0, 0⟩ true).sett.channel0_start =
          (match d.channel0 with
           | some w => if 0 ≤ w ∧ w ≤ 999999 then w else ({} : Settings).channel0_start
           | none => ({} : Settings).channel0_start))
      ∧ (∀ d : RemoteConfigDoc,
        (apply_config_from_server testLimits {} d ⟨0, 0, 0, 0⟩ true).sett.mqtt_port =
          (if d.mqtt_on.getD ({} : Settings).mqtt_on then
            (match d.mqtt_port with
             | some p => if 1 ≤ p ∧ p ≤ 65535 then p else ({} : Settings).mqtt_port
             | none => ({} : Settings).mqtt_port)
           else ({} : Settings).mqtt_port))
      ∧ apply_config_from_server testLimits {} { channel0 := some 1000000, factor0 := some 77 }
          ⟨0, 0, 0, 0⟩ true
          = apply_config_from_server testLimits {}
              (eraseChannel0 { channel0 := some 1000000, factor0 := some 77 })
              ⟨0, 0, 0, 0⟩ true) :=
  ⟨by decide, by decide,
   C6_field_validation_independence testLimits {} { channel0 := some 1000000, factor0 := some 77 }
     ⟨0, 0, 0, 0⟩ true 1000000 (by decide) (by decide)⟩



/-- C7 counterexample: the claim's threshold is ceil(1440 /
wakeup_per_min) = (1440 + 7 - 1) / 7 = 206 at a 7-minute period, so with
the feature flag on, a scheduled wake, zero deltas and counter 205 (< 206)
the claim says the wake skips transmission; the code computes the
threshold by integer floor division (1440 / 7 = 205), finds the counter
has reached it, and transmits (skip = false). -/
theorem C7_ceil_threshold_counterexample :
    (woc_decision
      { wake_on_consumption_only := true, wakeup_per_min := 7, wakeups_without_send := 205 }
      ⟨0, 0, 0, 0⟩ false 0 0).1 = false
    ∧ ({ wake_on_consumption_only := true, wakeup_per_min := 7, wakeups_without_send := 205 }
        : Settings).wake_on_consumption_only = true
    ∧ (205 : Nat) < (1440 + 7 - 1) / 7 := by
  refine ⟨by decide, by decide, by decide⟩

/-- C7 amended: on a wake cycle with configuration loaded, a scheduled
wake skips transmission iff the wake-on-consumption-only flag is on AND
both deltas are zero AND the no-transmission counter has not reached
floor(1440 / wakeup_per_min) (integer division, floored at minimum 1); a
manually-triggered wake never skips. -/
theorem C7_wake_skip_decision (sett : Settings) (data : AttinyData) (manual : Bool)
    (delta0 delta1 : Nat) (hw : 1 ≤ sett.wakeup_per_min) :
    (woc_decision sett data manual delta0 delta1).1 =
      (!manual && sett.wake_on_consumption_only && decide (delta0 = 0) && decide (delta1 = 0)
        && decide (sett.wakeups_without_send < max 1 (1440 / sett.wakeup_per_min))) := by
  unfold woc_decision
  cases manual <;> cases hwoc : sett.wake_on_consumption_only <;> simp [hwoc]
  split_ifs with h1 h2 <;> simp_all
  rename_i himp
  intro hd0 hd1 hc0
  have hb : 1 ≤ 1440 / sett.wakeup_per_min := Nat.one_le_iff_ne_zero.mpr h1
  have hcc := himp hd0 hd1
  omega

/-- Concrete settings for the C7 witness: the spec's P8 point. -/
def wocSett143 : Settings :=
  { wake_on_consumption_only := true, wakeup_per_min := 10, wakeups_without_send := 143 }

/-- C7 witness: the spec's P8 point — period 10 minutes (threshold 144),
counter 143, zero deltas, scheduled wake: the decision is to skip. -/
theorem C7_wake_skip_decision_witness :
    1 ≤ wocSett143.wakeup_per_min
    ∧ (woc_decision wocSett143 ⟨0, 0, 0, 0⟩ false 0 0).1 =
      (!false && wocSett143.wake_on_consumption_only
        && decide ((0 : Nat) = 0) && decide ((0 : Nat) = 0)
        && decide (wocSett143.wakeups_without_send
            < max 1 (1440 / wocSett143.wakeup_per_min))) :=
  ⟨by decide, C7_wake_skip_decision wocSett143 ⟨0, 0, 0, 0⟩ false 0 0 (by decide)⟩

/-- Concrete inputs for the C8 failing cycle: consumption present, the
waterius sender configured, every POST attempt failing. -/
def failSendSett : Settings :=
  { wake_on_consumption_only := true, wakeups_without_send := 5, wakeup_per_min := 10,
    waterius_on := true, waterius_host := "h" }

/-- The C8 failing cycle's external inputs: WiFi connects, both senders'
POSTs fail, nothing is fetched. -/
def failSendOracle : CycleOracle :=
  { wifiOk := true, wtrPostOk := false, wtrBody := "", wtrParsed := none,
    httpPostOk := false, httpBody := "", httpParsed := none, cfgFetched := none,
    i2cOk := false }

/-- C8: the claim (and the code's own comments, main.cpp lines 146-147
and 292) say the wakeups-without-send counter is reset only after a
successful transmission.  The code resets it whenever the connected
branch completes, regardless of the senders' results: in this concrete
cycle WiFi connects, the configured waterius sender's POST fails on every
attempt (`wtrPostOk = false`), the HTTP sender is disabled, yet the
counter goes from 5 to 0 and the cycle ends normally. -/
theorem C8_counter_reset_on_failed_send :
    (loop testLimits true false failSendSett ⟨3, 0, 0, 0⟩ failSendOracle).sett.wakeups_without_send = 0
    ∧ (loop testLimits true false failSendSett ⟨3, 0, 0, 0⟩ failSendOracle).restarted = false
    ∧ failSendSett.wakeups_without_send = 5
    ∧ failSendOracle.wtrPostOk = false
    ∧ failSendOracle.httpPostOk = false := by
  refine ⟨by decide, by decide, by decide, by decide, by decide⟩

/-- C9: a push-update on topic segment "ch0" with payload "12.345" does
set `channel0_start` to 12.345 and records the impulse baseline from the
cycle's snapshot, but the acknowledgement echo is computed as
`(int)(ch0 * 1000 + 5) / 1000.0` — adding 5 instead of the rounding
constant 0.5 — so the echoed value is 12.35 (in exact arithmetic; 12.349
under IEEE floats), not the claimed three-decimal rounding 12.345. -/
theorem C9_push_ch0_echo :
    (update_settings "waterius/ch0/set" "12.345" { channel0_start := 5 } ⟨777, 0, 0, 0⟩
        {} ({ ch0 := some 0 } : JsonEcho) true).updated = true
    ∧ (update_settings "waterius/ch0/set" "12.345" { channel0_start := 5 } ⟨777, 0, 0, 0⟩
        {} ({ ch0 := some 0 } : JsonEcho) true).sett.channel0_start = 12345 / 1000
    ∧ (update_settings "waterius/ch0/set" "12.345" { channel0_start := 5 } ⟨777, 0, 0, 0⟩
        {} ({ ch0 := some 0 } : JsonEcho) true).sett.impulses0_start = 777
    ∧ (update_settings "waterius/ch0/set" "12.345" { channel0_start := 5 } ⟨777, 0, 0, 0⟩
        {} ({ ch0 := some 0 } : JsonEcho) true).json.ch0 = some (1235 / 100)
    ∧ ((1235 / 100 : ℚ) ≠ 12345 / 1000) := by
  have hf : strToFloat "12.345" = 12345 / 1000 := by
    rw [strToFloat, atofQ,
      show atofParts "12.345".data = ⟨false, 12, 345, 3, false, 0⟩ from by decide]
    norm_num
  have hend : strEndsWith "waterius/ch0/set" "/set" = true := by decide
  have hpar : extractParam "waterius/ch0/set" = "ch0" := by decide
  have hecho : cIntOfRat ((12345 / 1000 : ℚ) * 1000 + 5) = 12350 := by norm_num [cIntOfRat]
  unfold update_settings
  simp only [hend, hpar, if_true, hf]
  simp only [show (("ch0" : String) = "period_min") = False by simp,
    show (("ch0" : String) = "f0") = False by simp,
    show (("ch0" : String) = "f1") = False by simp,
    show (("ch0" : String) = "ch0") = True by simp,
    if_false, if_true]
  rw [if_pos (by norm_num : (0 : ℚ) ≤ 12345 / 1000)]
  simp only [hecho]
  norm_num


end Waterius
